import Mathlib

/-!
# Ambient occlusion effect (`libraries/render-utils/src/AmbientOcclusionEffect.cpp`)

A shallow embedding of the host-side logic of the screen-space ambient-occlusion effect:
the Gaussian blur-tap builder, the base-3 radical-inverse sample table, the render-target
manager, `configure`, and the pass structure recorded by `run`.

Scalars (`float`/`double`) are read in exact arithmetic: the definitions are generic over a
linear ordered field `α` (executable at `ℚ`), and the theorems about `erf` and `M_PI` are
stated at `ℝ`.  The conversion to `float` of the integer configuration fields that are stored in
the parameter block rounds to a 24-bit significand (`roundToFloat`).
-/

namespace AmbientOcclusion

/-! ## The C math library -/

/-- The pieces of the C math library the effect calls: `erf`, the value `sqrt(2.0)` and the
constant `M_PI`. -/
structure LibM (α : Type) where
  /-- The error function `erf`. -/
  erf : α → α
  /-- The value of `sqrt(2.0)`. -/
  sqrt2 : α
  /-- The constant `M_PI`. -/
  pi : α

/-- The error function on the reals, `erf x = 2/√π * ∫₀ˣ exp (-t²) dt`. -/
noncomputable def erf (x : ℝ) : ℝ :=
  2 / Real.sqrt Real.pi * ∫ t in (0 : ℝ)..x, Real.exp (-t ^ 2)

/-- The C math library read in exact real arithmetic. -/
noncomputable def realLibM : LibM ℝ where
  erf := erf
  sqrt2 := Real.sqrt 2
  pi := Real.pi

/-! ## GaussianDistribution -/

/-- The ways the C++ code can fail to run to completion. -/
inductive Fault where
  /-- The constructor `std::vector<float>(samplingRadius + 1, 0.0f)` is asked for a negative
  count, which converted to `size_t` exceeds `max_size()`: `std::length_error`. -/
  | lengthError
  /-- A write `coefs[0] = 1.0f` into a vector of size 0. -/
  | outOfRangeWrite
  /-- A member access through a null `shared_ptr`. -/
  | nullDereference
  /-- A read of a container element outside its bounds. -/
  | outOfRangeRead
  deriving DecidableEq, Repr

namespace GaussianDistribution

variable {α : Type} [LinearOrderedField α]

/-- `static double integral(float x, float deviation)`:
`0.5 * erf((double)x / ((double)deviation * sqrt(2.0)))`. -/
def integral (m : LibM α) (x deviation : α) : α :=
  (1 / 2) * m.erf (x / (deviation * m.sqrt2))

/-- `static double rangeIntegral(float x0, float x1, float deviation)`. -/
def rangeIntegral (m : LibM α) (x0 x1 deviation : α) : α :=
  integral m x1 deviation - integral m x0 deviation

/-- One iteration of the loop `for (int i = 0; i < samplingRadius; i++)` of `evalSampling`,
on the pair `(coefs, sum)`. -/
def evalSamplingStep (m : LibM α) (deviation : α) (st : List α × α) (i : Nat) : List α × α :=
  let halfWidth : α := 1 / 2
  let x : α := (i : α)
  let sample := rangeIntegral m (x - halfWidth) (x + halfWidth) deviation
  (st.1.set i sample, st.2 + sample)

/-- `static std::vector<float> evalSampling(int samplingRadius, float deviation)`. -/
def evalSampling (m : LibM α) (samplingRadius : Int) (deviation : α) : Except Fault (List α) :=
  -- std::vector<float> coefs(samplingRadius + 1, 0.0f);
  if samplingRadius + 1 < 0 then
    .error .lengthError
  else
    let coefs : List α := List.replicate (samplingRadius + 1).toNat 0
    -- corner case when radius is 0 or under
    if samplingRadius ≤ 0 then
      if 0 < coefs.length then .ok (coefs.set 0 1) else .error .outOfRangeWrite
    else
      let halfWidth : α := 1 / 2
      let st := (List.range samplingRadius.toNat).foldl (evalSamplingStep m deviation) (coefs, 0)
      -- last sample goes to infinity
      let lastSampleX0 : α := (samplingRadius : α) - halfWidth
      let largeEnough : α := lastSampleX0 + 1000 * deviation
      let sample := rangeIntegral m lastSampleX0 largeEnough deviation
      let coefs := st.1.set samplingRadius.toNat sample
      let _sum := st.2 + sample
      .ok coefs

/-- `static void evalSampling(float* coefs, unsigned int coefsLength, int samplingRadius,
float deviation)`: the fixed-capacity variant, on a caller buffer `coefs` of declared length
`coefsLength`. -/
def evalSamplingInto (m : LibM α) (coefs : List α) (coefsLength : Nat) (samplingRadius : Int)
    (deviation : α) : Except Fault (List α) :=
  match evalSampling m samplingRadius deviation with
  | .error e => .error e
  | .ok coefsVector =>
    if coefsLength > coefsVector.length + 1 then
      -- for (auto s : coefsVector) { coefs[coefsNum] = s; coefsNum++; }
      let st := coefsVector.foldl (fun (st : List α × Nat) s => (st.1.set st.2 s, st.2 + 1))
        (coefs, 0)
      -- for (;coefsNum < coefsLength; coefsNum++) { coefs[coefsNum] = 0.0f; }
      .ok ((List.range' st.2 (coefsLength - st.2)).foldl (fun c k => c.set k 0) st.1)
    else
      .ok coefs

/-- The range integral of the unit bin centred at offset `i`. -/
def binWeight (m : LibM α) (deviation : α) (i : Nat) : α :=
  rangeIntegral m ((i : α) - 1 / 2) ((i : α) + 1 / 2) deviation

/-- The weight of the last tap, from `samplingRadius - 0.5` out to `1000 * deviation` further. -/
def tailWeight (m : LibM α) (deviation : α) (r : Nat) : α :=
  rangeIntegral m ((r : α) - 1 / 2) ((r : α) - 1 / 2 + 1000 * deviation) deviation

end GaussianDistribution

/-! ## The sample-rotation table (`AmbientOcclusionEffect::configure`, "Regenerate offsets") -/

section Samples

variable {α : Type} [LinearOrderedField α]

/-- The loop
`while (index > 0) { f = f * invB; r = r + f * (float)(index % B); index = index / B; }`
with `B = 3`, started from `index`, `f` and `r`; the value is the final `r`. -/
def radicalInverseLoop (invB : α) (index : Nat) (f r : α) : α :=
  if _h : index > 0 then
    radicalInverseLoop invB (index / 3) (f * invB) (r + f * invB * ((index % 3 : Nat) : α))
  else
    r
termination_by index
decreasing_by omega

/-- The value `r` computed for one table entry: `invB = 1.0f / (float)B`, `f = 1.0f`,
`r = 0.0f`, then the loop. -/
def radicalInverse (index : Nat) : α :=
  radicalInverseLoop (1 / 3 : α) index 1 0

/-- The value stored in `_randomSamples[i]`: `r * M_PI / config.numSamples`, with
`index = i + 1`. -/
def sampleAngle (m : LibM α) (numSamples : Int) (i : Nat) : α :=
  radicalInverse (i + 1) * m.pi / (numSamples : α)

/-- The loop `for (int i = 0; i < _randomSamples.size(); i++) { ... _randomSamples[i] = ...; }`:
every entry of the table is overwritten, the size of the table is kept. -/
def regenerateSamples (m : LibM α) (numSamples : Int) (randomSamples : List α) : List α :=
  (List.range randomSamples.length).map (sampleAngle m numSamples)

end Samples

/-! ## Vectors and the declarations of `AmbientOcclusionEffect.h` -/

/-- A `glm::ivec2`. -/
structure IVec2 where
  x : Int
  y : Int
  deriving DecidableEq, Repr

/-- A `glm::ivec4`; as a viewport, `(x, y)` is the origin and `(z, w)` the width and height. -/
structure IVec4 where
  x : Int
  y : Int
  z : Int
  w : Int
  deriving DecidableEq, Repr

/-- A `glm::vec4`. -/
structure Vec4 (α : Type) where
  x : α
  y : α
  z : α
  w : α
  deriving DecidableEq, Repr

/-- The operator `glm::ivec4 >> int`, component-wise arithmetic shift. -/
def IVec4.shiftRight (v : IVec4) (n : Nat) : IVec4 :=
  ⟨v.x >>> n, v.y >>> n, v.z >>> n, v.w >>> n⟩

/-- The declarations of `AmbientOcclusionEffect.h` the code depends on; the header is not part
of the sources, so its macros and member initialisers are parameters. -/
structure Header where
  /-- The macro `SSAO_USE_HORIZON_BASED` (0 or 1). -/
  SSAO_USE_HORIZON_BASED : Nat
  /-- The macro `SSAO_USE_QUAD_SPLIT` (0 or 1), also used as a shift count. -/
  SSAO_USE_QUAD_SPLIT : Nat
  /-- The macro `SSAO_SPLIT_COUNT`, the number of per-split frame parameter buffers. -/
  SSAO_SPLIT_COUNT : Nat
  /-- The macro `SSAO_BLUR_GAUSSIAN_COEFS_COUNT`, the length of `_blurFilterTaps`. -/
  SSAO_BLUR_GAUSSIAN_COEFS_COUNT : Nat
  /-- The value of `_frameSize` in a freshly constructed `AmbientOcclusionFramebuffer`. -/
  initialFrameSize : IVec2
  /-- The value of `_resolutionLevel` in a freshly constructed `AmbientOcclusionFramebuffer`. -/
  initialResolutionLevel : Int
  /-- The size of the member `_randomSamples` as the header declares it; the code reads
  `_randomSamples.size()` and never resizes the container. -/
  randomSamplesSize : Nat
  deriving DecidableEq, Repr

/-! ## AmbientOcclusionFramebuffer -/

/-- A `gpu::TexturePointer` to a texture owned by a collaborator: the identity of the pointee,
or `none` for the null pointer. -/
abbrev TexturePointer := Option Nat

/-- The pixel formats used by the render targets. -/
inductive Format where
  | COLOR_R_8
  | COLOR_R11G11B10
  deriving DecidableEq, Repr

/-- The sampler filters used by the render targets (all with `WRAP_CLAMP`). -/
inductive Filter where
  | FILTER_MIN_MAG_LINEAR
  | FILTER_MIN_MAG_POINT
  deriving DecidableEq, Repr

/-- A texture made by `gpu::Texture::createRenderBuffer(format, width, height, SINGLE_MIP,
Sampler(filter, WRAP_CLAMP))`. -/
structure RenderBuffer where
  format : Format
  width : Int
  height : Int
  filter : Filter
  deriving DecidableEq, Repr

/-- The names given to `gpu::Framebuffer::create`. -/
inductive FramebufferName where
  | occlusion
  | occlusionBlurred
  | ssaoNormals
  deriving DecidableEq, Repr

/-- A framebuffer made by `gpu::Framebuffer::create(name)` followed by
`setRenderBuffer(0, texture)`. -/
structure Framebuffer where
  name : FramebufferName
  renderBuffer0 : RenderBuffer
  deriving DecidableEq, Repr

/-- The members of `class AmbientOcclusionFramebuffer`; an owned pointer is `none` when null. -/
structure AmbientOcclusionFramebuffer where
  _linearDepthTexture : TexturePointer
  _frameSize : IVec2
  _occlusionFramebuffer : Option Framebuffer
  _occlusionTexture : Option RenderBuffer
  _occlusionBlurredFramebuffer : Option Framebuffer
  _occlusionBlurredTexture : Option RenderBuffer
  _normalFramebuffer : Option Framebuffer
  _normalTexture : Option RenderBuffer
  _resolutionLevel : Int
  deriving DecidableEq, Repr

namespace AmbientOcclusionFramebuffer

/-- `AmbientOcclusionFramebuffer::AmbientOcclusionFramebuffer()`: every pointer is null. -/
def new (hdr : Header) : AmbientOcclusionFramebuffer where
  _linearDepthTexture := none
  _frameSize := hdr.initialFrameSize
  _occlusionFramebuffer := none
  _occlusionTexture := none
  _occlusionBlurredFramebuffer := none
  _occlusionBlurredTexture := none
  _normalFramebuffer := none
  _normalTexture := none
  _resolutionLevel := hdr.initialResolutionLevel

/-- `void AmbientOcclusionFramebuffer::clear()`. -/
def clear (self : AmbientOcclusionFramebuffer) : AmbientOcclusionFramebuffer :=
  { self with
    _occlusionFramebuffer := none
    _occlusionTexture := none
    _occlusionBlurredFramebuffer := none
    _occlusionBlurredTexture := none
    _normalFramebuffer := none
    _normalTexture := none }

/-- `bool AmbientOcclusionFramebuffer::updateLinearDepth(const gpu::TexturePointer&)`.
`getDimensions t` is the value of `glm::ivec2(t->getDimensions())` at the time of the call. -/
def updateLinearDepth (getDimensions : Nat → IVec2) (self : AmbientOcclusionFramebuffer)
    (linearDepthBuffer : TexturePointer) : Bool × AmbientOcclusionFramebuffer :=
  -- If the depth buffer or size changed, we need to delete our FBOs
  let reset := false
  let st1 : AmbientOcclusionFramebuffer × Bool :=
    if self._linearDepthTexture ≠ linearDepthBuffer then
      ({ self with _linearDepthTexture := linearDepthBuffer }, true)
    else
      (self, reset)
  let st2 : AmbientOcclusionFramebuffer × Bool :=
    match st1.1._linearDepthTexture with
    | some t =>
      let newFrameSize := getDimensions t
      if st1.1._frameSize ≠ newFrameSize then
        ({ st1.1 with _frameSize := newFrameSize }, true)
      else
        st1
    | none => st1
  let st3 : AmbientOcclusionFramebuffer := if st2.2 then st2.1.clear else st2.1
  (st2.2, st3)

/-- `gpu::TexturePointer AmbientOcclusionFramebuffer::getLinearDepthTexture()`. -/
def getLinearDepthTexture (self : AmbientOcclusionFramebuffer) : TexturePointer :=
  self._linearDepthTexture

/-- `glm::ivec2 getSourceFrameSize() const`, the accessor of `_frameSize`. -/
def getSourceFrameSize (self : AmbientOcclusionFramebuffer) : IVec2 :=
  self._frameSize

/-- `void AmbientOcclusionFramebuffer::allocate()`. -/
def allocate (self : AmbientOcclusionFramebuffer) : AmbientOcclusionFramebuffer :=
  let width := self._frameSize.x
  let height := self._frameSize.y
  let format := Format.COLOR_R_8
  let occlusionTexture : RenderBuffer := ⟨format, width, height, .FILTER_MIN_MAG_LINEAR⟩
  let occlusionBlurredTexture : RenderBuffer := ⟨format, width, height, .FILTER_MIN_MAG_LINEAR⟩
  { self with
    _occlusionTexture := some occlusionTexture
    _occlusionFramebuffer := some ⟨.occlusion, occlusionTexture⟩
    _occlusionBlurredTexture := some occlusionBlurredTexture
    _occlusionBlurredFramebuffer := some ⟨.occlusionBlurred, occlusionBlurredTexture⟩ }

/-- `gpu::FramebufferPointer AmbientOcclusionFramebuffer::getOcclusionFramebuffer()`. -/
def getOcclusionFramebuffer (self : AmbientOcclusionFramebuffer) :
    Option Framebuffer × AmbientOcclusionFramebuffer :=
  let self := if self._occlusionFramebuffer.isNone then self.allocate else self
  (self._occlusionFramebuffer, self)

/-- `gpu::TexturePointer AmbientOcclusionFramebuffer::getOcclusionTexture()`. -/
def getOcclusionTexture (self : AmbientOcclusionFramebuffer) :
    Option RenderBuffer × AmbientOcclusionFramebuffer :=
  let self := if self._occlusionTexture.isNone then self.allocate else self
  (self._occlusionTexture, self)

/-- `gpu::FramebufferPointer AmbientOcclusionFramebuffer::getOcclusionBlurredFramebuffer()`. -/
def getOcclusionBlurredFramebuffer (self : AmbientOcclusionFramebuffer) :
    Option Framebuffer × AmbientOcclusionFramebuffer :=
  let self := if self._occlusionBlurredFramebuffer.isNone then self.allocate else self
  (self._occlusionBlurredFramebuffer, self)

/-- `gpu::TexturePointer AmbientOcclusionFramebuffer::getOcclusionBlurredTexture()`. -/
def getOcclusionBlurredTexture (self : AmbientOcclusionFramebuffer) :
    Option RenderBuffer × AmbientOcclusionFramebuffer :=
  let self := if self._occlusionBlurredTexture.isNone then self.allocate else self
  (self._occlusionBlurredTexture, self)

/-- `void AmbientOcclusionFramebuffer::allocate(int resolutionLevel)`. -/
def allocateNormal (self : AmbientOcclusionFramebuffer) (resolutionLevel : Int) :
    AmbientOcclusionFramebuffer :=
  let width := self._frameSize.x >>> resolutionLevel.toNat
  let height := self._frameSize.y >>> resolutionLevel.toNat
  let normalTexture : RenderBuffer := ⟨.COLOR_R11G11B10, width, height, .FILTER_MIN_MAG_POINT⟩
  { self with
    _normalTexture := some normalTexture
    _normalFramebuffer := some ⟨.ssaoNormals, normalTexture⟩
    _resolutionLevel := resolutionLevel }

/-- `gpu::FramebufferPointer AmbientOcclusionFramebuffer::getNormalFramebuffer(int)`. -/
def getNormalFramebuffer (self : AmbientOcclusionFramebuffer) (resolutionLevel : Int) :
    Option Framebuffer × AmbientOcclusionFramebuffer :=
  let self :=
    if self._normalFramebuffer.isNone ∨ resolutionLevel ≠ self._resolutionLevel then
      self.allocateNormal resolutionLevel
    else self
  (self._normalFramebuffer, self)

/-- `gpu::TexturePointer AmbientOcclusionFramebuffer::getNormalTexture(int)`. -/
def getNormalTexture (self : AmbientOcclusionFramebuffer) (resolutionLevel : Int) :
    Option RenderBuffer × AmbientOcclusionFramebuffer :=
  let self :=
    if self._normalTexture.isNone ∨ resolutionLevel ≠ self._resolutionLevel then
      self.allocateNormal resolutionLevel
    else self
  (self._normalTexture, self)

/-- `getNormalFramebuffer(int)` with the calls of `allocate(int)` it makes: the same branch as
`getNormalFramebuffer`, which returns in addition the list of the levels it has allocated for
(empty when the existing buffer is returned as it is). -/
def getNormalFramebufferTraced (self : AmbientOcclusionFramebuffer) (resolutionLevel : Int) :
    Option Framebuffer × AmbientOcclusionFramebuffer × List Int :=
  if self._normalFramebuffer.isNone ∨ resolutionLevel ≠ self._resolutionLevel then
    ((self.allocateNormal resolutionLevel)._normalFramebuffer,
      self.allocateNormal resolutionLevel, [resolutionLevel])
  else
    (self._normalFramebuffer, self, [])

/-- `getNormalTexture(int)` with the calls of `allocate(int)` it makes, as for
`getNormalFramebufferTraced`. -/
def getNormalTextureTraced (self : AmbientOcclusionFramebuffer) (resolutionLevel : Int) :
    Option RenderBuffer × AmbientOcclusionFramebuffer × List Int :=
  if self._normalTexture.isNone ∨ resolutionLevel ≠ self._resolutionLevel then
    ((self.allocateNormal resolutionLevel)._normalTexture,
      self.allocateNormal resolutionLevel, [resolutionLevel])
  else
    (self._normalTexture, self, [])

end AmbientOcclusionFramebuffer

/-! ## AmbientOcclusionEffect: parameters and `configure` -/

section Effect

variable {α : Type} [LinearOrderedField α] [FloorRing α]

/-- The fields of `AmbientOcclusionEffectConfig` read by `configure`. -/
@[ext]
structure Config (α : Type) where
  enabled : Bool
  radius : α
  perspectiveScale : α
  obscuranceLevel : α
  falloffAngle : α
  edgeSharpness : α
  blurDeviation : α
  numSpiralTurns : α
  numSamples : Int
  resolutionLevel : Int
  blurRadius : Int
  ditheringEnabled : Bool
  borderingEnabled : Bool
  fetchMipsEnabled : Bool

/-- `AmbientOcclusionEffectConfig::AmbientOcclusionEffectConfig()`: the default values. -/
def Config.default (hdr : Header) : Config α where
  enabled := false
  radius := if hdr.SSAO_USE_HORIZON_BASED ≠ 0 then 3 / 10 else 5 / 10
  perspectiveScale := 1
  obscuranceLevel := 5 / 10
  falloffAngle := if hdr.SSAO_USE_HORIZON_BASED ≠ 0 then 3 / 10 else 1 / 100
  edgeSharpness := 1
  blurDeviation := 25 / 10
  numSpiralTurns := 7
  numSamples := if hdr.SSAO_USE_HORIZON_BASED ≠ 0 then 3 else 16
  resolutionLevel := 2
  blurRadius := 4
  ditheringEnabled := true
  borderingEnabled := true
  fetchMipsEnabled := true

/-- The GPU-visible block `AmbientOcclusionEffect::AOParameters`. -/
structure AOParameters (α : Type) where
  _resolutionInfo : Vec4 α
  _radiusInfo : Vec4 α
  _ditheringInfo : Vec4 α
  _sampleInfo : Vec4 α
  _blurInfo : Vec4 α
  _blurFilterTaps : List α

/-- `AmbientOcclusionEffect::AOParameters::AOParameters()`; the constructor leaves
`_blurFilterTaps` as the header initialises it. -/
def AOParameters.new (blurFilterTaps : List α) : AOParameters α where
  _resolutionInfo := ⟨-1, 0, 1, 0⟩
  _radiusInfo := ⟨5 / 10, 5 / 10 * (5 / 10), 1 / (25 / 100 * (25 / 100) * (25 / 100)), 1⟩
  _ditheringInfo := ⟨0, 0, 1 / 100, 1⟩
  _sampleInfo := ⟨11, 1 / 11, 7, 1⟩
  _blurInfo := ⟨1, 3, 2, 0⟩
  _blurFilterTaps := blurFilterTaps

/-- The conversion `(int) x` of a float: truncation toward zero. -/
def truncToInt (x : α) : Int :=
  if 0 ≤ x then ⌊x⌋ else ⌈x⌉

/-- The conversion `(float) b` of a `bool`. -/
def boolToFloat (b : Bool) : α :=
  if b then 1 else 0

/-- The number of low bits that a 24-bit significand drops from the natural number `a`: the
least `e` with `a / 2 ^ e < 2 ^ 24` (`fuel` bounds the search and is given as `a`). -/
def floatExponent : Nat → Nat → Nat
  | 0, _ => 0
  | fuel + 1, a => if a < 2 ^ 24 then 0 else floatExponent fuel (a / 2) + 1

/-- The integer that the conversion `(float) n` of an `int` yields: `n` rounded to the nearest
number with a 24-bit significand, ties to the even significand.  Every `|n| <= 2 ^ 24` is kept;
`16777217` becomes `16777216`. -/
def roundToFloat (n : Int) : Int :=
  let a := n.natAbs
  let e := floatExponent a a
  let q := a / 2 ^ e
  let rem := a % 2 ^ e
  let q := if 2 * rem > 2 ^ e ∨ (2 * rem = 2 ^ e ∧ q % 2 = 1) then q + 1 else q
  n.sign * ((q * 2 ^ e : Nat) : Int)

/-- The conversion `(float) n` of an `int`, as a scalar. -/
def intToFloat (n : Int) : α :=
  ((roundToFloat n : Int) : α)

namespace AOParameters

/-- Modelled from the spec: the accessors of the parameter block are declared in
`AmbientOcclusionEffect.h`, which is not part of the sources; the spec's data model gives the
layout "resolution info (level, half-flag, perspective scale)". -/
def getResolutionLevel (p : AOParameters α) : Int := truncToInt p._resolutionInfo.x

/-- Modelled from the spec: "radius info (radius, radius², a falloff-shaping exponent term,
obscurance level)"; the accessor is declared in the header. -/
def getRadius (p : AOParameters α) : α := p._radiusInfo.x

/-- Modelled from the spec: "resolution info (level, half-flag, perspective scale)". -/
def getPerspectiveScale (p : AOParameters α) : α := p._resolutionInfo.z

/-- Modelled from the spec: "radius info (..., obscurance level)". -/
def getObscuranceLevel (p : AOParameters α) : α := p._radiusInfo.w

/-- Modelled from the spec: "dithering info (dithering enable, falloff normalization, falloff
angle, bordering enable)". -/
def getFalloffAngle (p : AOParameters α) : α := p._ditheringInfo.z

/-- Modelled from the spec: "blur info (edge sharpness, blur radius, blur deviation)". -/
def getEdgeSharpness (p : AOParameters α) : α := p._blurInfo.x

/-- Modelled from the spec: "blur info (edge sharpness, blur radius, blur deviation)". -/
def getBlurDeviation (p : AOParameters α) : α := p._blurInfo.z

/-- Modelled from the spec: "sample info (sample count, inverse sample count, spiral-turn
count, mip-fetch enable)". -/
def getNumSpiralTurns (p : AOParameters α) : α := p._sampleInfo.z

/-- Modelled from the spec: "sample info (sample count, ...)", read back as an `int`. -/
def getNumSamples (p : AOParameters α) : Int := truncToInt p._sampleInfo.x

/-- Modelled from the spec: "sample info (..., mip-fetch enable)", read back as a `bool`. -/
def isFetchMipsEnabled (p : AOParameters α) : Bool := decide (p._sampleInfo.w ≠ 0)

/-- Modelled from the spec: "blur info (edge sharpness, blur radius, ...)", read back as an
`int`. -/
def getBlurRadius (p : AOParameters α) : Int := truncToInt p._blurInfo.y

/-- Modelled from the spec: "dithering info (dithering enable, ...)", read back as a `bool`. -/
def isDitheringEnabled (p : AOParameters α) : Bool := decide (p._ditheringInfo.x ≠ 0)

/-- Modelled from the spec: "dithering info (..., bordering enable)", read back as a `bool`. -/
def isBorderingEnabled (p : AOParameters α) : Bool := decide (p._ditheringInfo.w ≠ 0)

end AOParameters

/-- The per-split block `AmbientOcclusionFrameParams`. -/
structure FrameParams (α : Type) where
  _pixelOffsets : IVec4
  _angleInfo : Vec4 α

/-- The per-direction block `AmbientOcclusionBlurParams`. -/
structure BlurParams (α : Type) where
  scaleHeight : Vec4 α

/-- The members of `class AmbientOcclusionEffect` (the pipelines are static and kept apart). -/
structure AmbientOcclusionEffect (α : Type) where
  _aoParametersBuffer : AOParameters α
  _aoFrameParametersBuffer : List (FrameParams α)
  _vblurParametersBuffer : BlurParams α
  _hblurParametersBuffer : BlurParams α
  _randomSamples : List α
  _framebuffer : Option AmbientOcclusionFramebuffer
  _frameId : Int
  _gpuTimer : Bool

/-- The observable actions of `configure`: every `edit()` of a parameter buffer, the
regeneration of the sample table, and the calls it makes. -/
inductive Event where
  | setAmbientOcclusionEnabled (enabled : Bool)
  | editAOParameters
  | editFrameParameters (splitId : Nat)
  | editHBlurParameters
  | editVBlurParameters
  | regenerateSamples
  | updateGaussianDistribution
  | updateBlurParameters
  deriving DecidableEq, Repr

/-- The effect while `configure` runs: the members, the events so far and the two locals
`shouldUpdateGaussian` and `shouldUpdateBlurs`. -/
structure ConfigureState (α : Type) where
  self : AmbientOcclusionEffect α
  log : List Event
  shouldUpdateGaussian : Bool
  shouldUpdateBlurs : Bool

/-- The statement `auto& current = _aoParametersBuffer.edit()...` followed by writes `f`. -/
def ConfigureState.editAO (st : ConfigureState α) (f : AOParameters α → AOParameters α) :
    ConfigureState α :=
  { st with
    self := { st.self with _aoParametersBuffer := f st.self._aoParametersBuffer }
    log := st.log ++ [Event.editAOParameters] }

/-- The statement `_aoFrameParametersBuffer[splitId].edit()._pixelOffsets = offsets`. -/
def ConfigureState.editPixelOffsets (st : ConfigureState α) (splitId : Nat) (offsets : IVec4) :
    ConfigureState α :=
  { st with
    self := { st.self with
      _aoFrameParametersBuffer := st.self._aoFrameParametersBuffer.modify
        (fun p => { p with _pixelOffsets := offsets }) splitId }
    log := st.log ++ [Event.editFrameParameters splitId] }

namespace AmbientOcclusionEffect

/-- `AmbientOcclusionEffect::AmbientOcclusionEffect()`: the body is empty; the parameter block
is built by `AOParameters()`, the pointers are null, the containers have the sizes the header
gives them and the numeric members the constructor does not set are taken as zero. -/
def new (hdr : Header) : AmbientOcclusionEffect α where
  _aoParametersBuffer := AOParameters.new (List.replicate hdr.SSAO_BLUR_GAUSSIAN_COEFS_COUNT 0)
  _aoFrameParametersBuffer :=
    List.replicate hdr.SSAO_SPLIT_COUNT { _pixelOffsets := ⟨0, 0, 0, 0⟩, _angleInfo := ⟨0, 0, 0, 0⟩ }
  _vblurParametersBuffer := { scaleHeight := ⟨0, 0, 0, 0⟩ }
  _hblurParametersBuffer := { scaleHeight := ⟨0, 0, 0, 0⟩ }
  _randomSamples := List.replicate hdr.randomSamplesSize 0
  _framebuffer := none
  _frameId := 0
  _gpuTimer := false

/-- `if (radius != _aoParametersBuffer->getRadius()) { ... }`. -/
def configureRadius (hdr : Header) (config : Config α) (st : ConfigureState α) :
    ConfigureState α :=
  let radius := config.radius
  if radius ≠ st.self._aoParametersBuffer.getRadius then
    st.editAO fun p => { p with
      _radiusInfo := { p._radiusInfo with
        x := radius
        y := radius * radius
        z := if hdr.SSAO_USE_HORIZON_BASED = 0 then 10 * (1 / radius ^ 6) else 10 } }
  else st

/-- `if (config.obscuranceLevel != _aoParametersBuffer->getObscuranceLevel()) { ... }`. -/
def configureObscuranceLevel (config : Config α) (st : ConfigureState α) : ConfigureState α :=
  if config.obscuranceLevel ≠ st.self._aoParametersBuffer.getObscuranceLevel then
    st.editAO fun p => { p with _radiusInfo := { p._radiusInfo with w := config.obscuranceLevel } }
  else st

/-- `if (config.falloffAngle != _aoParametersBuffer->getFalloffAngle()) { ... }`. -/
def configureFalloffAngle (config : Config α) (st : ConfigureState α) : ConfigureState α :=
  if config.falloffAngle ≠ st.self._aoParametersBuffer.getFalloffAngle then
    st.editAO fun p => { p with
      _ditheringInfo := { p._ditheringInfo with
        z := config.falloffAngle
        y := 1 / (1 - config.falloffAngle) } }
  else st

/-- `if (config.edgeSharpness != _aoParametersBuffer->getEdgeSharpness()) { ... }`. -/
def configureEdgeSharpness (config : Config α) (st : ConfigureState α) : ConfigureState α :=
  if config.edgeSharpness ≠ st.self._aoParametersBuffer.getEdgeSharpness then
    st.editAO fun p => { p with _blurInfo := { p._blurInfo with x := config.edgeSharpness } }
  else st

/-- `if (config.blurDeviation != _aoParametersBuffer->getBlurDeviation()) { ... }`. -/
def configureBlurDeviation (config : Config α) (st : ConfigureState α) : ConfigureState α :=
  if config.blurDeviation ≠ st.self._aoParametersBuffer.getBlurDeviation then
    { st.editAO fun p => { p with _blurInfo := { p._blurInfo with z := config.blurDeviation } }
      with shouldUpdateGaussian := true }
  else st

/-- `if (config.numSpiralTurns != _aoParametersBuffer->getNumSpiralTurns()) { ... }`. -/
def configureNumSpiralTurns (config : Config α) (st : ConfigureState α) : ConfigureState α :=
  if config.numSpiralTurns ≠ st.self._aoParametersBuffer.getNumSpiralTurns then
    st.editAO fun p => { p with _sampleInfo := { p._sampleInfo with z := config.numSpiralTurns } }
  else st

/-- `if (config.numSamples != _aoParametersBuffer->getNumSamples()) { ... }`, with the
regeneration of `_randomSamples`. -/
def configureNumSamples (m : LibM α) (config : Config α) (st : ConfigureState α) :
    ConfigureState α :=
  if config.numSamples ≠ st.self._aoParametersBuffer.getNumSamples then
    let st := st.editAO fun p => { p with
      _sampleInfo := { p._sampleInfo with
        x := intToFloat config.numSamples
        y := 1 / (config.numSamples : α) } }
    -- Regenerate offsets
    { st with
      self := { st.self with
        _randomSamples := regenerateSamples m config.numSamples st.self._randomSamples }
      log := st.log ++ [Event.regenerateSamples] }
  else st

/-- `if (config.fetchMipsEnabled != _aoParametersBuffer->isFetchMipsEnabled()) { ... }`. -/
def configureFetchMips (config : Config α) (st : ConfigureState α) : ConfigureState α :=
  if config.fetchMipsEnabled ≠ st.self._aoParametersBuffer.isFetchMipsEnabled then
    st.editAO fun p => { p with
      _sampleInfo := { p._sampleInfo with w := boolToFloat config.fetchMipsEnabled } }
  else st

/-- `if (!_framebuffer) { _framebuffer = std::make_shared<...>(); shouldUpdateBlurs = true; }`. -/
def configureFramebuffer (hdr : Header) (st : ConfigureState α) : ConfigureState α :=
  if st.self._framebuffer.isNone then
    { st with
      self := { st.self with _framebuffer := some (AmbientOcclusionFramebuffer.new hdr) }
      shouldUpdateBlurs := true }
  else st

/-- `if (config.perspectiveScale != _aoParametersBuffer->getPerspectiveScale()) { ... }`. -/
def configurePerspectiveScale (config : Config α) (st : ConfigureState α) : ConfigureState α :=
  if config.perspectiveScale ≠ st.self._aoParametersBuffer.getPerspectiveScale then
    st.editAO fun p => { p with
      _resolutionInfo := { p._resolutionInfo with z := config.perspectiveScale } }
  else st

/-- `if (config.resolutionLevel != _aoParametersBuffer->getResolutionLevel()) { ... }`. -/
def configureResolutionLevel (hdr : Header) (config : Config α) (st : ConfigureState α) :
    ConfigureState α :=
  if config.resolutionLevel ≠ st.self._aoParametersBuffer.getResolutionLevel then
    let st := st.editAO fun p => { p with
      _resolutionInfo := { p._resolutionInfo with x := intToFloat config.resolutionLevel } }
    let st := { st with shouldUpdateBlurs := true }
    let st := st.editPixelOffsets 0 ⟨0, 0, 0, 0⟩
    if hdr.SSAO_USE_QUAD_SPLIT ≠ 0 then
      let st := st.editPixelOffsets 1 ⟨1, 0, 0, 0⟩
      let st := st.editPixelOffsets 2 ⟨1, 1, 0, 0⟩
      st.editPixelOffsets 3 ⟨0, 1, 0, 0⟩
    else st
  else st

/-- `if (config.blurRadius != _aoParametersBuffer.get().getBlurRadius()) { ... }`. -/
def configureBlurRadius (config : Config α) (st : ConfigureState α) : ConfigureState α :=
  if config.blurRadius ≠ st.self._aoParametersBuffer.getBlurRadius then
    { st.editAO fun p => { p with _blurInfo := { p._blurInfo with y := intToFloat config.blurRadius } }
      with shouldUpdateGaussian := true }
  else st

/-- `if (config.ditheringEnabled != _aoParametersBuffer->isDitheringEnabled()) { ... }`. -/
def configureDithering (config : Config α) (st : ConfigureState α) : ConfigureState α :=
  if config.ditheringEnabled ≠ st.self._aoParametersBuffer.isDitheringEnabled then
    st.editAO fun p => { p with
      _ditheringInfo := { p._ditheringInfo with x := boolToFloat config.ditheringEnabled } }
  else st

/-- `if (config.borderingEnabled != _aoParametersBuffer->isBorderingEnabled()) { ... }`. -/
def configureBordering (config : Config α) (st : ConfigureState α) : ConfigureState α :=
  if config.borderingEnabled ≠ st.self._aoParametersBuffer.isBorderingEnabled then
    st.editAO fun p => { p with
      _ditheringInfo := { p._ditheringInfo with w := boolToFloat config.borderingEnabled } }
  else st

/-- `void AmbientOcclusionEffect::updateGaussianDistribution()`. -/
def updateGaussianDistribution (hdr : Header) (m : LibM α) (st : ConfigureState α) :
    Except Fault (ConfigureState α) :=
  let st := { st with log := st.log ++ [Event.updateGaussianDistribution, Event.editAOParameters] }
  let filterTaps := st.self._aoParametersBuffer._blurFilterTaps
  let blurRadius := st.self._aoParametersBuffer.getBlurRadius
  match GaussianDistribution.evalSamplingInto m filterTaps hdr.SSAO_BLUR_GAUSSIAN_COEFS_COUNT
      blurRadius st.self._aoParametersBuffer.getBlurDeviation with
  | .error e => .error e
  | .ok taps =>
    .ok { st with
      self := { st.self with
        _aoParametersBuffer := { st.self._aoParametersBuffer with _blurFilterTaps := taps } } }

/-- `void AmbientOcclusionEffect::updateBlurParameters()`. -/
def updateBlurParameters (st : ConfigureState α) : Except Fault (ConfigureState α) :=
  let resolutionLevel := st.self._aoParametersBuffer.getResolutionLevel
  let resolutionScale : Int := ((1 <<< resolutionLevel.toNat : Nat) : Int)
  let st := { st with
    log := st.log ++ [Event.updateBlurParameters, Event.editVBlurParameters,
      Event.editHBlurParameters] }
  match st.self._framebuffer with
  | none => .error .nullDereference
  | some framebuffer =>
    let frameSize := framebuffer.getSourceFrameSize
    let hblur : BlurParams α := { st.self._hblurParametersBuffer with
      scaleHeight := { st.self._hblurParametersBuffer.scaleHeight with
        x := 1 / (frameSize.x : α)
        y := (resolutionScale : α) / (frameSize.x : α)
        z := ((Int.tdiv frameSize.y resolutionScale : Int) : α) } }
    let vblur : BlurParams α := { st.self._vblurParametersBuffer with
      scaleHeight := { st.self._vblurParametersBuffer.scaleHeight with
        x := 1 / (frameSize.y : α)
        y := (resolutionScale : α) / (frameSize.y : α)
        z := (frameSize.y : α) } }
    .ok { st with
      self := { st.self with _hblurParametersBuffer := hblur, _vblurParametersBuffer := vblur } }

/-- The field comparisons of `configure`, in source order, before the two deferred updates. -/
def configureFields (hdr : Header) (m : LibM α) (config : Config α)
    (self : AmbientOcclusionEffect α) : ConfigureState α :=
  -- DependencyManager::get<DeferredLightingEffect>()->setAmbientOcclusionEnabled(config.enabled);
  let st : ConfigureState α :=
    { self := self
      log := [Event.setAmbientOcclusionEnabled config.enabled]
      shouldUpdateGaussian := false
      shouldUpdateBlurs := false }
  let st := configureRadius hdr config st
  let st := configureObscuranceLevel config st
  let st := configureFalloffAngle config st
  let st := configureEdgeSharpness config st
  let st := configureBlurDeviation config st
  let st := configureNumSpiralTurns config st
  let st := configureNumSamples m config st
  let st := configureFetchMips config st
  let st := configureFramebuffer hdr st
  let st := configurePerspectiveScale config st
  let st := configureResolutionLevel hdr config st
  let st := configureBlurRadius config st
  let st := configureDithering config st
  configureBordering config st

/-- `void AmbientOcclusionEffect::configure(const Config& config)`: the new members and the
events of the call, or the fault that ends it. -/
def configure (hdr : Header) (m : LibM α) (config : Config α) (self : AmbientOcclusionEffect α) :
    Except Fault (AmbientOcclusionEffect α × List Event) :=
  let st := configureFields hdr m config self
  match (if st.shouldUpdateGaussian then updateGaussianDistribution hdr m st else .ok st) with
  | .error e => .error e
  | .ok st =>
    match (if st.shouldUpdateBlurs then updateBlurParameters st else .ok st) with
    | .error e => .error e
    | .ok st => .ok (st.self, st.log)

/-- The comparisons of `configure` that precede the sample-count block, in source order: the
state in which the block `if (config.numSamples != _aoParametersBuffer->getNumSamples())` is
reached. -/
def configureBeforeNumSamples (hdr : Header) (config : Config α)
    (self : AmbientOcclusionEffect α) : ConfigureState α :=
  let st : ConfigureState α :=
    { self := self
      log := [Event.setAmbientOcclusionEnabled config.enabled]
      shouldUpdateGaussian := false
      shouldUpdateBlurs := false }
  let st := configureRadius hdr config st
  let st := configureObscuranceLevel config st
  let st := configureFalloffAngle config st
  let st := configureEdgeSharpness config st
  let st := configureBlurDeviation config st
  configureNumSpiralTurns config st

end AmbientOcclusionEffect

/-- The configuration read back from the parameter block through its accessors (`enabled` is
not stored in the block and is passed along). -/
def AOParameters.readBack (enabled : Bool) (p : AOParameters α) : Config α where
  enabled := enabled
  radius := p.getRadius
  perspectiveScale := p.getPerspectiveScale
  obscuranceLevel := p.getObscuranceLevel
  falloffAngle := p.getFalloffAngle
  edgeSharpness := p.getEdgeSharpness
  blurDeviation := p.getBlurDeviation
  numSpiralTurns := p.getNumSpiralTurns
  numSamples := p.getNumSamples
  resolutionLevel := p.getResolutionLevel
  blurRadius := p.getBlurRadius
  ditheringEnabled := p.isDitheringEnabled
  borderingEnabled := p.isBorderingEnabled
  fetchMipsEnabled := p.isFetchMipsEnabled

end Effect

/-! ## AmbientOcclusionEffect: `run` -/

/-- The static pipelines of the effect, named by their accessor. -/
inductive Pipeline where
  | occlusion
  | hBlur
  | vBlur
  | mipCreation
  | gather
  | buildNormals
  deriving DecidableEq, Repr

/-- The framebuffers `run` binds. -/
inductive FramebufferRef where
  | occlusionFBO
  | occlusionBlurredFBO
  | occlusionNormalFramebuffer
  deriving DecidableEq, Repr

/-- The textures `run` binds. -/
inductive TextureRef where
  | linearDepthTexture
  | halfLinearDepthTexture
  | occlusionNormalTexture
  | renderBuffer0 (framebuffer : FramebufferRef)
  | null
  deriving DecidableEq, Repr

/-- The texture slots of `render_utils::slot::texture`. -/
inductive TextureSlot where
  | SsaoDepth
  | SsaoNormal
  | SsaoOcclusion
  deriving DecidableEq, Repr

/-- The buffer slots of `render_utils::slot::buffer`. -/
inductive BufferSlot where
  | DeferredFrameTransform
  | SsaoParams
  | SsaoFrameParams
  | SsaoBlurParams
  deriving DecidableEq, Repr

/-- The uniform buffers `run` binds. -/
inductive BufferRef where
  | frameTransformBuffer
  | aoParametersBuffer
  | aoFrameParametersBuffer (splitId : Nat)
  | hblurParametersBuffer
  | vblurParametersBuffer
  deriving DecidableEq, Repr

/-- The names of the profile ranges. -/
inductive ProfileRange where
  | AmbientOcclusion
  | DepthMipCreation
  | BuildNormals
  | Occlusion
  | Gather
  | BilateralBlur
  | Horizontal
  | Vertical
  deriving DecidableEq, Repr

/-- The scale of a `Transform` (`model.setScale`). -/
structure Scale (α : Type) where
  x : α
  y : α
  z : α
  deriving DecidableEq, Repr

/-- The commands `run` records into its `gpu::Batch`.  The macro `PROFILE_RANGE_BATCH(batch,
name)` is recorded as one command at the place where it stands; `draw` is
`batch.draw(gpu::TRIANGLE_STRIP, 4)` and `clearColorFramebuffer` clears `BUFFER_COLOR0` to
`glm::vec4(1.0f)`. -/
inductive Command (α : Type) where
  | profileRangeBatch (name : ProfileRange)
  | enableStereo (enable : Bool)
  | gpuTimerBegin
  | gpuTimerEnd
  | resetViewTransform
  | setProjectionTransform
  | setModelTransform (scale : Scale α)
  | pushProfileRange (name : ProfileRange)
  | popProfileRange
  | setPipeline (pipeline : Pipeline)
  | generateTextureMipsWithPipeline (texture : TextureRef)
  | generateTextureMips (texture : TextureRef)
  | setViewportTransform (viewport : IVec4)
  | setResourceTexture (slot : TextureSlot) (texture : TextureRef)
  | setUniformBuffer (slot : BufferSlot) (buffer : BufferRef)
  | setFramebuffer (framebuffer : FramebufferRef)
  | clearColorFramebuffer
  | draw
  deriving DecidableEq, Repr

/-- The draws of a command list, each with the pipeline and the viewport bound by the list at
the time of the `draw` (`none` when the list has not set one yet). -/
def drawCallsFrom {α : Type} :
    Option Pipeline → Option IVec4 → List (Command α) → List (Option Pipeline × Option IVec4)
  | _, _, [] => []
  | _, v, .setPipeline q :: rest => drawCallsFrom (some q) v rest
  | p, _, .setViewportTransform w :: rest => drawCallsFrom p (some w) rest
  | p, v, .draw :: rest => (p, v) :: drawCallsFrom p v rest
  | p, v, _ :: rest => drawCallsFrom p v rest

/-- The draws of a batch, in order. -/
def drawCalls {α : Type} (batch : List (Command α)) : List (Option Pipeline × Option IVec4) :=
  drawCallsFrom none none batch

/-- The viewports bound at the draws issued with the occlusion pipeline, in order. -/
def occlusionDrawViewports {α : Type} (batch : List (Command α)) : List (Option IVec4) :=
  ((drawCalls batch).filter fun d => d.1 = some Pipeline.occlusion).map Prod.snd

/-- The pixel `(px, py)` lies in the viewport rectangle `v`. -/
def IVec4.covers (v : IVec4) (px py : Int) : Prop :=
  v.x ≤ px ∧ px < v.x + v.z ∧ v.y ≤ py ∧ py < v.y + v.w

/-- Two viewport rectangles share a pixel. -/
def IVec4.overlaps (a b : IVec4) : Prop :=
  ∃ px py, a.covers px py ∧ b.covers px py

/-- The number of pixels of a viewport rectangle, width times height. -/
def IVec4.area (v : IVec4) : Int :=
  v.z * v.w

section Run

variable {α : Type} [LinearOrderedField α] [FloorRing α]

namespace AmbientOcclusionEffect

/-- The viewports `run` derives from `args->_viewport` and the resolution level:
`(occlusionViewport, firstBlurViewport)`. -/
def runViewports (sourceViewport : IVec4) (resolutionLevel : Int) : IVec4 × IVec4 :=
  let occlusionViewport := sourceViewport
  let firstBlurViewport := sourceViewport
  if resolutionLevel > 0 then
    (occlusionViewport.shiftRight resolutionLevel.toNat,
      { firstBlurViewport with w := firstBlurViewport.w >>> resolutionLevel.toNat })
  else
    (occlusionViewport, firstBlurViewport)

/-- The commands recorded by the lambda that `run` passes to `gpu::doInBatch`, as a function
of the values it captures. -/
def runBatch (hdr : Header) (occlusionDepthTexture : TextureRef)
    (sourceViewport occlusionViewport firstBlurViewport : IVec4) (resolutionScale : α) :
    List (Command α) :=
  [ .profileRangeBatch .AmbientOcclusion,
    .enableStereo false,
    .gpuTimerBegin,
    .resetViewTransform,
    .setProjectionTransform,
    .setModelTransform ⟨1, 1, 1⟩,
    -- We need this with the mips levels
    .pushProfileRange .DepthMipCreation ] ++
  (if hdr.SSAO_USE_HORIZON_BASED ≠ 0 then
    [ .setPipeline .mipCreation,
      .generateTextureMipsWithPipeline occlusionDepthTexture ]
  else
    [ .generateTextureMips occlusionDepthTexture ]) ++
  [ .popProfileRange ] ++
  -- Build face normals pass
  (if hdr.SSAO_USE_QUAD_SPLIT ≠ 0 then
    [ .pushProfileRange .BuildNormals,
      .setViewportTransform occlusionViewport,
      .setPipeline .buildNormals,
      .setResourceTexture .SsaoDepth .linearDepthTexture,
      .setResourceTexture .SsaoNormal .null,
      .setUniformBuffer .DeferredFrameTransform .frameTransformBuffer,
      .setUniformBuffer .SsaoParams .aoParametersBuffer,
      .setFramebuffer .occlusionNormalFramebuffer,
      .draw,
      .popProfileRange ]
  else []) ++
  -- Occlusion pass
  [ .pushProfileRange .Occlusion,
    .setUniformBuffer .DeferredFrameTransform .frameTransformBuffer,
    .setUniformBuffer .SsaoParams .aoParametersBuffer,
    .setFramebuffer (if hdr.SSAO_USE_QUAD_SPLIT ≠ 0 then .occlusionBlurredFBO else .occlusionFBO),
    .clearColorFramebuffer,
    .setPipeline .occlusion,
    .setResourceTexture .SsaoDepth occlusionDepthTexture ] ++
  (if hdr.SSAO_USE_QUAD_SPLIT ≠ 0 then
    let splitViewport0 := occlusionViewport.shiftRight hdr.SSAO_USE_QUAD_SPLIT
    -- splitViewport.x += splitViewport.z;
    let splitViewport1 := { splitViewport0 with x := splitViewport0.x + splitViewport0.z }
    -- splitViewport.y += splitViewport.w;
    let splitViewport2 := { splitViewport1 with y := splitViewport1.y + splitViewport1.w }
    -- splitViewport.x = 0;
    let splitViewport3 := { splitViewport2 with x := 0 }
    [ .setResourceTexture .SsaoNormal .occlusionNormalTexture,
      .setViewportTransform splitViewport0,
      .setUniformBuffer .SsaoFrameParams (.aoFrameParametersBuffer 0),
      .draw,
      .setViewportTransform splitViewport1,
      .setUniformBuffer .SsaoFrameParams (.aoFrameParametersBuffer 1),
      .draw,
      .setViewportTransform splitViewport2,
      .setUniformBuffer .SsaoFrameParams (.aoFrameParametersBuffer 2),
      .draw,
      .setViewportTransform splitViewport3,
      .setUniformBuffer .SsaoFrameParams (.aoFrameParametersBuffer 3),
      .draw ]
  else
    [ .setUniformBuffer .SsaoFrameParams (.aoFrameParametersBuffer 0),
      .draw ]) ++
  [ .popProfileRange ] ++
  -- Gather back the four separate renders into one interleaved one
  (if hdr.SSAO_USE_QUAD_SPLIT ≠ 0 then
    [ .pushProfileRange .Gather,
      .setViewportTransform occlusionViewport,
      .setFramebuffer .occlusionFBO,
      .setPipeline .gather,
      .setResourceTexture .SsaoOcclusion (.renderBuffer0 .occlusionBlurredFBO),
      .draw,
      .popProfileRange ]
  else []) ++
  [ .profileRangeBatch .BilateralBlur,
    -- Blur 1st pass
    .pushProfileRange .Horizontal,
    .setModelTransform ⟨resolutionScale, resolutionScale, resolutionScale⟩,
    .setViewportTransform firstBlurViewport,
    .setFramebuffer .occlusionBlurredFBO,
    -- Use full resolution depth and normal for bilateral upscaling and blur
    .setResourceTexture .SsaoDepth .linearDepthTexture,
    .setUniformBuffer .SsaoBlurParams .hblurParametersBuffer,
    .setPipeline .hBlur,
    .setResourceTexture .SsaoOcclusion (.renderBuffer0 .occlusionFBO),
    .draw,
    .popProfileRange,
    -- Blur 2nd pass
    .pushProfileRange .Vertical,
    .setModelTransform ⟨1, resolutionScale, 1⟩,
    .setViewportTransform sourceViewport,
    .setFramebuffer .occlusionFBO,
    .setUniformBuffer .SsaoBlurParams .vblurParametersBuffer,
    .setPipeline .vBlur,
    .setResourceTexture .SsaoOcclusion (.renderBuffer0 .occlusionBlurredFBO),
    .draw,
    .popProfileRange,
    .setResourceTexture .SsaoDepth .null,
    .setResourceTexture .SsaoOcclusion .null,
    .gpuTimerEnd ]

/-- The loop "Update sample rotation" of `run`:
`sample._angleInfo.x = _randomSamples[splitId + SSAO_RANDOM_SAMPLE_COUNT * _frameId]` for every
`splitId < SSAO_SPLIT_COUNT`, with `SSAO_RANDOM_SAMPLE_COUNT = _randomSamples.size() /
SSAO_SPLIT_COUNT`. -/
def updateSampleRotation (hdr : Header) (self : AmbientOcclusionEffect α) :
    Except Fault (AmbientOcclusionEffect α) :=
  let SSAO_RANDOM_SAMPLE_COUNT : Int := ((self._randomSamples.length / hdr.SSAO_SPLIT_COUNT : Nat) : Int)
  (List.range hdr.SSAO_SPLIT_COUNT).foldlM
    (fun (self : AmbientOcclusionEffect α) (splitId : Nat) =>
      let index : Int := (splitId : Int) + SSAO_RANDOM_SAMPLE_COUNT * self._frameId
      if 0 ≤ index ∧ index.toNat < self._randomSamples.length then
        .ok { self with
          _aoFrameParametersBuffer := self._aoFrameParametersBuffer.modify
            (fun p => { p with
              _angleInfo := { p._angleInfo with x := self._randomSamples.getD index.toNat 0 } })
            splitId }
      else
        .error Fault.outOfRangeRead)
    self

/-- `void AmbientOcclusionEffect::run(renderContext, inputs, outputs)`: the members after the
call and the batch it records.  `viewport` is `args->_viewport`, `linearDepthTexture` is
`linearDepthFramebuffer->getLinearDepthTexture()` and `getDimensions` gives the dimensions of
a texture at the time of the call. -/
def run (hdr : Header) (getDimensions : Nat → IVec2) (viewport : IVec4)
    (linearDepthTexture : TexturePointer) (self : AmbientOcclusionEffect α) :
    Except Fault (AmbientOcclusionEffect α × List (Command α)) :=
  let sourceViewport := viewport
  -- if (!_gpuTimer) { _gpuTimer = std::make_shared<gpu::RangeTimer>(__FUNCTION__); }
  let self := if !self._gpuTimer then { self with _gpuTimer := true } else self
  -- if (!_framebuffer) { _framebuffer = std::make_shared<AmbientOcclusionFramebuffer>(); }
  let framebuffer := match self._framebuffer with
    | none => AmbientOcclusionFramebuffer.new hdr
    | some framebuffer => framebuffer
  let resolutionLevel := self._aoParametersBuffer.getResolutionLevel
  let resolutionScale : α := (1 / 2 : α) ^ resolutionLevel
  let viewports := runViewports sourceViewport resolutionLevel
  let occlusionDepthTexture :=
    if resolutionLevel > 0 then TextureRef.halfLinearDepthTexture
    else TextureRef.linearDepthTexture
  -- if (_framebuffer->updateLinearDepth(linearDepthTexture)) { updateBlurParameters(); }
  let updated := framebuffer.updateLinearDepth getDimensions linearDepthTexture
  let st : ConfigureState α :=
    { self := { self with _framebuffer := some updated.2 }
      log := []
      shouldUpdateGaussian := false
      shouldUpdateBlurs := false }
  match (if updated.1 then updateBlurParameters st else .ok st) with
  | .error e => .error e
  | .ok st =>
    let framebuffer := updated.2.getOcclusionFramebuffer.2
    let framebuffer := framebuffer.getOcclusionBlurredFramebuffer.2
    let framebuffer :=
      if hdr.SSAO_USE_QUAD_SPLIT ≠ 0 then
        ((framebuffer.getNormalFramebuffer resolutionLevel).2.getNormalTexture resolutionLevel).2
      else framebuffer
    -- Update sample rotation
    match updateSampleRotation hdr { st.self with _framebuffer := some framebuffer } with
    | .error e => .error e
    | .ok self =>
      .ok (self, runBatch hdr occlusionDepthTexture sourceViewport viewports.1 viewports.2
        resolutionScale)

/-- The index `splitId + SSAO_RANDOM_SAMPLE_COUNT * _frameId` at which `run` reads
`_randomSamples` for the split `splitId`, with
`SSAO_RANDOM_SAMPLE_COUNT = int(_randomSamples.size() / SSAO_SPLIT_COUNT)`. -/
def sampleIndex (hdr : Header) (self : AmbientOcclusionEffect α) (splitId : Nat) : Int :=
  (splitId : Int) +
    ((self._randomSamples.length / hdr.SSAO_SPLIT_COUNT : Nat) : Int) * self._frameId

/-- The states of the effect that completed calls of `configure` and `run` produce from the
state `init`. -/
inductive Reachable (hdr : Header) (m : LibM α) (init : AmbientOcclusionEffect α) :
    AmbientOcclusionEffect α → Prop where
  | start : Reachable hdr m init init
  | afterConfigure (config : Config α) (self self1 : AmbientOcclusionEffect α)
      (log : List Event) :
      Reachable hdr m init self → configure hdr m config self = .ok (self1, log) →
      Reachable hdr m init self1
  | afterRun (getDimensions : Nat → IVec2) (viewport : IVec4)
      (linearDepthTexture : TexturePointer) (self self1 : AmbientOcclusionEffect α)
      (batch : List (Command α)) :
      Reachable hdr m init self →
      run hdr getDimensions viewport linearDepthTexture self = .ok (self1, batch) →
      Reachable hdr m init self1

end AmbientOcclusionEffect

end Run

/-! # Theorems -/

/-! ## Facts about the error function -/

section ErrorFunction

open MeasureTheory Set

end ErrorFunction

/-! ## GaussianDistribution: shape of the result -/

namespace GaussianDistribution

variable {α : Type} [LinearOrderedField α]

theorem evalSamplingLoop_spec (m : LibM α) (deviation : α) (l : List α) (s : α) (n : Nat) :
    ((List.range n).foldl (evalSamplingStep m deviation) (l, s)).1.length = l.length ∧
    ∀ j, ((List.range n).foldl (evalSamplingStep m deviation) (l, s)).1[j]? =
      if j < n then (if j < l.length then some (binWeight m deviation j) else none)
      else l[j]? := by
  induction n with
  | zero => simp
  | succ n ih =>
    rw [List.range_succ, List.foldl_append]
    obtain ⟨hlen, hget⟩ := ih
    simp only [List.foldl_cons, List.foldl_nil, evalSamplingStep, List.length_set]
    refine ⟨hlen, fun j => ?_⟩
    rw [List.getElem?_set, hlen, hget]
    by_cases hj : n = j
    · subst hj
      simp [binWeight]
    · have : j < n + 1 ↔ j < n := by omega
      simp [hj, this]

theorem evalSampling_pos (m : LibM α) (deviation : α) (r : Nat) (hr : 0 < r) :
    ∃ taps, evalSampling m (r : Int) deviation = .ok taps ∧ taps.length = r + 1 ∧
      (∀ j, j < r → taps[j]? = some (binWeight m deviation j)) ∧
      taps[r]? = some (tailWeight m deviation r) := by
  have h1 : ¬ ((r : Int) + 1 < 0) := by omega
  have h2 : ¬ ((r : Int) ≤ 0) := by omega
  have h3 : ((r : Int) + 1).toNat = r + 1 := by omega
  obtain ⟨hlen, hget⟩ := evalSamplingLoop_spec m deviation (List.replicate (r + 1) 0) 0 r
  refine ⟨_, by simp only [evalSampling, h1, h2, if_false, h3, Int.toNat_ofNat]; rfl, ?_, ?_, ?_⟩
  · simp [hlen]
  · intro j hj
    rw [List.getElem?_set, hget]
    have : r ≠ j := by omega
    simp [this, hj]
    omega
  · rw [List.getElem?_set]
    simp [hlen, tailWeight]

end GaussianDistribution

/-! ## C1: the symmetrised kernel sums to 1 -/

/-- C3: for every deviation `d` (in particular every `d > 0`), `evalSampling(0, d)` returns
exactly the one-element list `[1.0]`. -/
theorem evalSampling_zero {α : Type} [LinearOrderedField α] (m : LibM α) (d : α) :
    GaussianDistribution.evalSampling m 0 d = .ok [1] := by
  simp [GaussianDistribution.evalSampling]

/-! ## C4: the fixed-capacity variant -/

namespace GaussianDistribution

variable {α : Type} [LinearOrderedField α]

theorem evalSampling_nonneg (m : LibM α) (deviation : α) (r : Nat) :
    ∃ taps, evalSampling m (r : Int) deviation = .ok taps ∧ taps.length = r + 1 := by
  rcases Nat.eq_zero_or_pos r with h | h
  · subst h
    exact ⟨[1], by simp [evalSampling], rfl⟩
  · obtain ⟨taps, hok, hlen, -⟩ := evalSampling_pos m deviation r h
    exact ⟨taps, hok, hlen⟩

end GaussianDistribution

section Samples

variable {α : Type} [LinearOrderedField α]

theorem third_lt {n : Nat} (h : 0 < n) : n / 3 < n := by omega

theorem radicalInverseLoop_zero (invB f r : α) : radicalInverseLoop invB 0 f r = r := by
  rw [radicalInverseLoop, dif_neg (lt_irrefl 0)]

theorem radicalInverseLoop_eq (index : Nat) : ∀ (f r : α),
    radicalInverseLoop (1 / 3 : α) index f r = r + f * radicalInverse index := by
  induction index using Nat.strong_induction_on with
  | _ index ih =>
    intro f r
    unfold radicalInverse
    rcases Nat.eq_zero_or_pos index with h | h
    · subst h
      rw [radicalInverseLoop_zero, radicalInverseLoop_zero]
      ring
    · rw [radicalInverseLoop, dif_pos h, ih _ (third_lt h)]
      conv_rhs => rw [radicalInverseLoop, dif_pos h, ih _ (third_lt h)]
      ring

theorem radicalInverse_zero : radicalInverse (α := α) 0 = 0 := by
  unfold radicalInverse
  rw [radicalInverseLoop_zero]

theorem radicalInverse_pos_eq (index : Nat) (h : 0 < index) :
    radicalInverse (α := α) index =
      (((index % 3 : Nat) : α) + radicalInverse (index / 3)) / 3 := by
  conv_lhs => rw [radicalInverse, radicalInverseLoop, dif_pos h, radicalInverseLoop_eq]
  ring

theorem radicalInverse_bounds (index : Nat) :
    0 ≤ radicalInverse (α := α) index ∧ radicalInverse (α := α) index < 1 := by
  induction index using Nat.strong_induction_on with
  | _ index ih =>
    rcases Nat.eq_zero_or_pos index with h | h
    · subst h
      rw [radicalInverse_zero]
      exact ⟨le_rfl, zero_lt_one⟩
    · obtain ⟨h0, h1⟩ := ih _ (third_lt h)
      rw [radicalInverse_pos_eq index h]
      have hd0 : (0 : α) ≤ ((index % 3 : Nat) : α) := Nat.cast_nonneg _
      have hd2 : ((index % 3 : Nat) : α) ≤ 2 := by
        have : index % 3 ≤ 2 := by omega
        exact_mod_cast this
      constructor
      · apply div_nonneg _ (by norm_num)
        linarith
      · rw [div_lt_one (by norm_num)]
        linarith

theorem radicalInverse_pos (index : Nat) (h : 0 < index) :
    0 < radicalInverse (α := α) index := by
  induction index using Nat.strong_induction_on with
  | _ index ih =>
    rw [radicalInverse_pos_eq index h]
    apply div_pos _ (by norm_num)
    rcases Nat.eq_zero_or_pos (index % 3) with hd | hd
    · have hq : 0 < index / 3 := by omega
      have := ih _ (third_lt h) hq
      rw [hd]
      simpa using this
    · have hd1 : (0 : α) < ((index % 3 : Nat) : α) := by exact_mod_cast hd
      have := (radicalInverse_bounds (α := α) (index / 3)).1
      linarith

theorem radicalInverse_injective (a : Nat) : ∀ b : Nat,
    radicalInverse (α := α) a = radicalInverse b → a = b := by
  induction a using Nat.strong_induction_on with
  | _ a ih =>
    intro b hab
    rcases Nat.eq_zero_or_pos a with ha | ha
    · subst ha
      rcases Nat.eq_zero_or_pos b with hb | hb
      · exact hb.symm
      · have := radicalInverse_pos (α := α) b hb
        rw [← hab, radicalInverse_zero] at this
        exact absurd this (lt_irrefl _)
    · rcases Nat.eq_zero_or_pos b with hb | hb
      · subst hb
        have := radicalInverse_pos (α := α) a ha
        rw [hab, radicalInverse_zero] at this
        exact absurd this (lt_irrefl _)
      · rw [radicalInverse_pos_eq a ha, radicalInverse_pos_eq b hb] at hab
        have hab2 : ((a % 3 : Nat) : α) + radicalInverse (a / 3) =
            ((b % 3 : Nat) : α) + radicalInverse (b / 3) := by
          have h3 : (3 : α) ≠ 0 := by norm_num
          field_simp at hab
          linarith
        obtain ⟨ha0, ha1⟩ := radicalInverse_bounds (α := α) (a / 3)
        obtain ⟨hb0, hb1⟩ := radicalInverse_bounds (α := α) (b / 3)
        have hdig : a % 3 = b % 3 := by
          rcases Nat.lt_trichotomy (a % 3) (b % 3) with hlt | heq | hgt
          · have : ((a % 3 : Nat) : α) + 1 ≤ ((b % 3 : Nat) : α) := by exact_mod_cast hlt
            linarith
          · exact heq
          · have : ((b % 3 : Nat) : α) + 1 ≤ ((a % 3 : Nat) : α) := by exact_mod_cast hgt
            linarith
        rw [hdig] at hab2
        have hq : a / 3 = b / 3 :=
          ih _ (third_lt ha) _ (add_left_cancel hab2)
        omega

theorem regenerateSamples_getElem? (m : LibM α) (numSamples : Int) (randomSamples : List α)
    (i : Nat) (hi : i < randomSamples.length) :
    (regenerateSamples m numSamples randomSamples)[i]? = some (sampleAngle m numSamples i) := by
  simp [regenerateSamples, List.getElem?_range hi]

end Samples

/-- C5: for every sample count `n >= 1` and every index `i` of the sample table, the entry
written by `configure` is `radicalInverse(i+1) * pi / n`, it lies in `[0, pi)`, and the
radical inverse computed by the while loop lies in `[0, 1)`. -/
theorem sampleAngle_range (n : Int) (hn : 1 ≤ n) (randomSamples : List ℝ) (i : Nat)
    (hi : i < randomSamples.length) :
    (regenerateSamples realLibM n randomSamples)[i]? =
        some ((radicalInverse (i + 1) : ℝ) * Real.pi / (n : ℝ)) ∧
    0 ≤ (radicalInverse (i + 1) : ℝ) * Real.pi / (n : ℝ) ∧
    (radicalInverse (i + 1) : ℝ) * Real.pi / (n : ℝ) < Real.pi ∧
    0 ≤ (radicalInverse (i + 1) : ℝ) ∧ (radicalInverse (i + 1) : ℝ) < 1 := by
  obtain ⟨h0, h1⟩ := radicalInverse_bounds (α := ℝ) (i + 1)
  have hn1 : (1 : ℝ) ≤ (n : ℝ) := by exact_mod_cast hn
  have hpi := Real.pi_pos
  refine ⟨regenerateSamples_getElem? realLibM n randomSamples i hi, ?_, ?_, h0, h1⟩
  · positivity
  · rw [div_lt_iff₀ (by linarith)]
    nlinarith

/-- With 16 samples the entry of index 4 of a table of 8 entries lies in `[0, pi)`. -/
theorem sampleAngle_range_witness :
    (1 : Int) ≤ 16 ∧ 4 < (List.replicate 8 (0 : ℝ)).length ∧
    ((regenerateSamples realLibM 16 (List.replicate 8 (0 : ℝ)))[4]? =
        some ((radicalInverse (4 + 1) : ℝ) * Real.pi / ((16 : Int) : ℝ)) ∧
    0 ≤ (radicalInverse (4 + 1) : ℝ) * Real.pi / ((16 : Int) : ℝ) ∧
    (radicalInverse (4 + 1) : ℝ) * Real.pi / ((16 : Int) : ℝ) < Real.pi ∧
    0 ≤ (radicalInverse (4 + 1) : ℝ) ∧ (radicalInverse (4 + 1) : ℝ) < 1) :=
  ⟨by norm_num, by simp, sampleAngle_range 16 (by norm_num) (List.replicate 8 0) 4 (by simp)⟩

/-- C6: for every sample count `n >= 1`, the angles `configure` writes into the sample table
are pairwise distinct: for table indices `i != j` the radical-inverse values of `i+1` and `j+1`
differ, and so do the two table entries. -/
theorem sampleAngle_distinct (n : Int) (hn : 1 ≤ n) (randomSamples : List ℝ) (i j : Nat)
    (hi : i < randomSamples.length) (hj : j < randomSamples.length) (hij : i ≠ j) :
    (radicalInverse (i + 1) : ℝ) ≠ radicalInverse (j + 1) ∧
    (regenerateSamples realLibM n randomSamples)[i]? ≠
      (regenerateSamples realLibM n randomSamples)[j]? := by
  have hne : (radicalInverse (i + 1) : ℝ) ≠ radicalInverse (j + 1) := fun h =>
    hij (by have := radicalInverse_injective (α := ℝ) (i + 1) (j + 1) h; omega)
  refine ⟨hne, ?_⟩
  rw [regenerateSamples_getElem? realLibM n randomSamples i hi,
    regenerateSamples_getElem? realLibM n randomSamples j hj]
  intro h
  have hn1 : (1 : ℝ) ≤ (n : ℝ) := by exact_mod_cast hn
  have hn0 : (n : ℝ) ≠ 0 := by linarith
  have hpi : Real.pi ≠ 0 := Real.pi_pos.ne.symm
  simp only [sampleAngle, realLibM, Option.some.injEq] at h
  field_simp at h
  rcases h with h | h
  · exact hne h
  · exact hpi h

/-- With 16 samples, entries 0 and 2 of a table of 8 entries differ. -/
theorem sampleAngle_distinct_witness :
    (1 : Int) ≤ 16 ∧ 0 < (List.replicate 8 (0 : ℝ)).length ∧
    2 < (List.replicate 8 (0 : ℝ)).length ∧ (0 : Nat) ≠ 2 ∧
    ((radicalInverse (0 + 1) : ℝ) ≠ radicalInverse (2 + 1) ∧
    (regenerateSamples realLibM 16 (List.replicate 8 (0 : ℝ)))[0]? ≠
      (regenerateSamples realLibM 16 (List.replicate 8 (0 : ℝ)))[2]?) :=
  ⟨by norm_num, by simp, by simp, by norm_num,
    sampleAngle_distinct 16 (by norm_num) (List.replicate 8 0) 0 2 (by simp) (by simp)
      (by norm_num)⟩

/-! ## C8: `updateLinearDepth` -/

/-- C8: `updateLinearDepth(t)` returns true exactly when `t` differs in identity from the stored
depth texture or (for non-null `t`) the dimensions of `t` differ from the stored frame size;
when it returns true all six owned render targets are released, when it returns false the
manager is left unchanged, and a second call with the same texture and dimensions returns
false. -/
theorem updateLinearDepth_spec (getDimensions : Nat → IVec2)
    (self : AmbientOcclusionFramebuffer) (t : TexturePointer) :
    ((self.updateLinearDepth getDimensions t).1 = true ↔
      (self._linearDepthTexture ≠ t ∨ ∃ p, t = some p ∧ getDimensions p ≠ self._frameSize)) ∧
    ((self.updateLinearDepth getDimensions t).1 = true →
      (self.updateLinearDepth getDimensions t).2._occlusionFramebuffer = none ∧
      (self.updateLinearDepth getDimensions t).2._occlusionTexture = none ∧
      (self.updateLinearDepth getDimensions t).2._occlusionBlurredFramebuffer = none ∧
      (self.updateLinearDepth getDimensions t).2._occlusionBlurredTexture = none ∧
      (self.updateLinearDepth getDimensions t).2._normalFramebuffer = none ∧
      (self.updateLinearDepth getDimensions t).2._normalTexture = none) ∧
    ((self.updateLinearDepth getDimensions t).1 = false →
      (self.updateLinearDepth getDimensions t).2 = self) ∧
    ((self.updateLinearDepth getDimensions t).2.updateLinearDepth getDimensions t).1 = false := by
  rcases t with _ | p
  · by_cases h1 : self._linearDepthTexture = none
    · simp [AmbientOcclusionFramebuffer.updateLinearDepth, h1]
    · simp [AmbientOcclusionFramebuffer.updateLinearDepth, h1,
        AmbientOcclusionFramebuffer.clear]
  · by_cases h1 : self._linearDepthTexture = some p
    · by_cases h2 : self._frameSize = getDimensions p
      · simp [AmbientOcclusionFramebuffer.updateLinearDepth, h1, h2]
      · have h3 : ¬ getDimensions p = self._frameSize := fun h => h2 h.symm
        simp [AmbientOcclusionFramebuffer.updateLinearDepth, h1, h2, h3,
          AmbientOcclusionFramebuffer.clear]
    · by_cases h2 : self._frameSize = getDimensions p
      · simp [AmbientOcclusionFramebuffer.updateLinearDepth, h1, h2,
          AmbientOcclusionFramebuffer.clear]
      · simp [AmbientOcclusionFramebuffer.updateLinearDepth, h1, h2,
          AmbientOcclusionFramebuffer.clear]

/-! ## C7: `configure` applied twice -/

section Configure

set_option linter.unusedSectionVars false

variable {α : Type} [LinearOrderedField α] [FloorRing α]

theorem truncToInt_intCast (n : Int) : truncToInt (n : α) = n := by
  unfold truncToInt
  split_ifs <;> simp

theorem decide_boolToFloat_ne_zero (b : Bool) : decide ((boolToFloat b : α) ≠ 0) = b := by
  cases b <;> simp [boolToFloat]

theorem truncToInt_intToFloat (n : Int) : truncToInt (intToFloat n : α) = roundToFloat n :=
  truncToInt_intCast _

theorem roundToFloat_of_lt (n : Int) (h : n.natAbs < 2 ^ 24) : roundToFloat n = n := by
  unfold roundToFloat
  have he : floatExponent n.natAbs n.natAbs = 0 := by
    cases hn : n.natAbs with
    | zero => rfl
    | succ k => rw [floatExponent, if_pos (by omega)]
  simp only [he, pow_zero, Nat.div_one, Nat.mod_one, mul_zero, gt_iff_lt, Nat.lt_one_iff, mul_one]
  simp
  exact Int.sign_mul_abs n

theorem roundToFloat_of_le (n : Int) (h : n.natAbs ≤ 2 ^ 24) : roundToFloat n = n := by
  rcases Nat.lt_or_eq_of_le h with h1 | h1
  · exact roundToFloat_of_lt n h1
  · rcases Int.natAbs_eq n with h2 | h2
    · rw [h1] at h2
      rw [h2]
      decide
    · rw [h1] at h2
      rw [h2]
      decide

theorem roundToFloat_nonneg (n : Int) (h : 0 ≤ n) : 0 ≤ roundToFloat n := by
  unfold roundToFloat
  exact mul_nonneg (Int.sign_nonneg.mpr h) (Int.natCast_nonneg _)

namespace AmbientOcclusionEffect

open AOParameters

theorem readBack_configureRadius (hdr : Header) (c : Config α) (st : ConfigureState α)
    (e : Bool) :
    readBack e (configureRadius hdr c st).self._aoParametersBuffer =
      { readBack e st.self._aoParametersBuffer with radius := c.radius } := by
  dsimp only [configureRadius]
  by_cases h : c.radius ≠ st.self._aoParametersBuffer.getRadius
  · rw [if_pos h]
    apply Config.ext <;> rfl
  · rw [if_neg h]
    have h2 := not_not.mp h
    apply Config.ext <;>
      first
      | rfl
      | exact h2.symm

theorem readBack_configureObscuranceLevel (c : Config α) (st : ConfigureState α)
    (e : Bool) :
    readBack e (configureObscuranceLevel c st).self._aoParametersBuffer =
      { readBack e st.self._aoParametersBuffer with obscuranceLevel := c.obscuranceLevel } := by
  dsimp only [configureObscuranceLevel]
  by_cases h : c.obscuranceLevel ≠ st.self._aoParametersBuffer.getObscuranceLevel
  · rw [if_pos h]
    apply Config.ext <;> rfl
  · rw [if_neg h]
    have h2 := not_not.mp h
    apply Config.ext <;>
      first
      | rfl
      | exact h2.symm

theorem readBack_configureFalloffAngle (c : Config α) (st : ConfigureState α)
    (e : Bool) :
    readBack e (configureFalloffAngle c st).self._aoParametersBuffer =
      { readBack e st.self._aoParametersBuffer with falloffAngle := c.falloffAngle } := by
  dsimp only [configureFalloffAngle]
  by_cases h : c.falloffAngle ≠ st.self._aoParametersBuffer.getFalloffAngle
  · rw [if_pos h]
    apply Config.ext <;> rfl
  · rw [if_neg h]
    have h2 := not_not.mp h
    apply Config.ext <;>
      first
      | rfl
      | exact h2.symm

theorem readBack_configureEdgeSharpness (c : Config α) (st : ConfigureState α)
    (e : Bool) :
    readBack e (configureEdgeSharpness c st).self._aoParametersBuffer =
      { readBack e st.self._aoParametersBuffer with edgeSharpness := c.edgeSharpness } := by
  dsimp only [configureEdgeSharpness]
  by_cases h : c.edgeSharpness ≠ st.self._aoParametersBuffer.getEdgeSharpness
  · rw [if_pos h]
    apply Config.ext <;> rfl
  · rw [if_neg h]
    have h2 := not_not.mp h
    apply Config.ext <;>
      first
      | rfl
      | exact h2.symm

theorem readBack_configureBlurDeviation (c : Config α) (st : ConfigureState α)
    (e : Bool) :
    readBack e (configureBlurDeviation c st).self._aoParametersBuffer =
      { readBack e st.self._aoParametersBuffer with blurDeviation := c.blurDeviation } := by
  dsimp only [configureBlurDeviation]
  by_cases h : c.blurDeviation ≠ st.self._aoParametersBuffer.getBlurDeviation
  · rw [if_pos h]
    apply Config.ext <;> rfl
  · rw [if_neg h]
    have h2 := not_not.mp h
    apply Config.ext <;>
      first
      | rfl
      | exact h2.symm

theorem readBack_configureNumSpiralTurns (c : Config α) (st : ConfigureState α)
    (e : Bool) :
    readBack e (configureNumSpiralTurns c st).self._aoParametersBuffer =
      { readBack e st.self._aoParametersBuffer with numSpiralTurns := c.numSpiralTurns } := by
  dsimp only [configureNumSpiralTurns]
  by_cases h : c.numSpiralTurns ≠ st.self._aoParametersBuffer.getNumSpiralTurns
  · rw [if_pos h]
    apply Config.ext <;> rfl
  · rw [if_neg h]
    have h2 := not_not.mp h
    apply Config.ext <;>
      first
      | rfl
      | exact h2.symm

theorem readBack_configureNumSamples (m : LibM α) (c : Config α) (st : ConfigureState α)
    (e : Bool) :
    readBack e (configureNumSamples m c st).self._aoParametersBuffer =
      { readBack e st.self._aoParametersBuffer with
        numSamples := if c.numSamples ≠ st.self._aoParametersBuffer.getNumSamples then
          roundToFloat c.numSamples else c.numSamples } := by
  dsimp only [configureNumSamples]
  by_cases h : c.numSamples ≠ st.self._aoParametersBuffer.getNumSamples
  · rw [if_pos h, if_pos h]
    (apply Config.ext <;>
      first
      | rfl
      | exact truncToInt_intCast _)
  · rw [if_neg h, if_neg h]
    have h2 := not_not.mp h
    apply Config.ext <;>
      first
      | rfl
      | exact h2.symm

theorem readBack_configureNumSamples_exact (m : LibM α) (c : Config α)
    (hex : roundToFloat c.numSamples = c.numSamples) (st : ConfigureState α) (e : Bool) :
    readBack e (configureNumSamples m c st).self._aoParametersBuffer =
      { readBack e st.self._aoParametersBuffer with numSamples := c.numSamples } := by
  rw [readBack_configureNumSamples, hex, ite_self]

theorem readBack_configureFetchMips (c : Config α) (st : ConfigureState α)
    (e : Bool) :
    readBack e (configureFetchMips c st).self._aoParametersBuffer =
      { readBack e st.self._aoParametersBuffer with fetchMipsEnabled := c.fetchMipsEnabled } := by
  dsimp only [configureFetchMips]
  by_cases h : c.fetchMipsEnabled ≠ st.self._aoParametersBuffer.isFetchMipsEnabled
  · rw [if_pos h]
    (apply Config.ext <;>
      first
      | rfl
      | exact decide_boolToFloat_ne_zero _)
  · rw [if_neg h]
    have h2 := not_not.mp h
    apply Config.ext <;>
      first
      | rfl
      | exact h2.symm

theorem readBack_configurePerspectiveScale (c : Config α) (st : ConfigureState α)
    (e : Bool) :
    readBack e (configurePerspectiveScale c st).self._aoParametersBuffer =
      { readBack e st.self._aoParametersBuffer with perspectiveScale := c.perspectiveScale } := by
  dsimp only [configurePerspectiveScale]
  by_cases h : c.perspectiveScale ≠ st.self._aoParametersBuffer.getPerspectiveScale
  · rw [if_pos h]
    apply Config.ext <;> rfl
  · rw [if_neg h]
    have h2 := not_not.mp h
    apply Config.ext <;>
      first
      | rfl
      | exact h2.symm

theorem readBack_configureResolutionLevel (hdr : Header) (c : Config α) (st : ConfigureState α)
    (e : Bool) :
    readBack e (configureResolutionLevel hdr c st).self._aoParametersBuffer =
      { readBack e st.self._aoParametersBuffer with
        resolutionLevel := if c.resolutionLevel ≠ st.self._aoParametersBuffer.getResolutionLevel then
          roundToFloat c.resolutionLevel else c.resolutionLevel } := by
  dsimp only [configureResolutionLevel]
  by_cases h : c.resolutionLevel ≠ st.self._aoParametersBuffer.getResolutionLevel
  · rw [if_pos h, if_pos h]
    split_ifs <;> (apply Config.ext <;>
      first
      | rfl
      | exact truncToInt_intCast _)
  · rw [if_neg h, if_neg h]
    have h2 := not_not.mp h
    apply Config.ext <;>
      first
      | rfl
      | exact h2.symm

theorem readBack_configureResolutionLevel_exact (hdr : Header) (c : Config α)
    (hex : roundToFloat c.resolutionLevel = c.resolutionLevel) (st : ConfigureState α) (e : Bool) :
    readBack e (configureResolutionLevel hdr c st).self._aoParametersBuffer =
      { readBack e st.self._aoParametersBuffer with resolutionLevel := c.resolutionLevel } := by
  rw [readBack_configureResolutionLevel, hex, ite_self]

theorem readBack_configureBlurRadius (c : Config α) (st : ConfigureState α)
    (e : Bool) :
    readBack e (configureBlurRadius c st).self._aoParametersBuffer =
      { readBack e st.self._aoParametersBuffer with
        blurRadius := if c.blurRadius ≠ st.self._aoParametersBuffer.getBlurRadius then
          roundToFloat c.blurRadius else c.blurRadius } := by
  dsimp only [configureBlurRadius]
  by_cases h : c.blurRadius ≠ st.self._aoParametersBuffer.getBlurRadius
  · rw [if_pos h, if_pos h]
    (apply Config.ext <;>
      first
      | rfl
      | exact truncToInt_intCast _)
  · rw [if_neg h, if_neg h]
    have h2 := not_not.mp h
    apply Config.ext <;>
      first
      | rfl
      | exact h2.symm

theorem readBack_configureBlurRadius_exact (c : Config α)
    (hex : roundToFloat c.blurRadius = c.blurRadius) (st : ConfigureState α) (e : Bool) :
    readBack e (configureBlurRadius c st).self._aoParametersBuffer =
      { readBack e st.self._aoParametersBuffer with blurRadius := c.blurRadius } := by
  rw [readBack_configureBlurRadius, hex, ite_self]

theorem readBack_configureDithering (c : Config α) (st : ConfigureState α)
    (e : Bool) :
    readBack e (configureDithering c st).self._aoParametersBuffer =
      { readBack e st.self._aoParametersBuffer with ditheringEnabled := c.ditheringEnabled } := by
  dsimp only [configureDithering]
  by_cases h : c.ditheringEnabled ≠ st.self._aoParametersBuffer.isDitheringEnabled
  · rw [if_pos h]
    (apply Config.ext <;>
      first
      | rfl
      | exact decide_boolToFloat_ne_zero _)
  · rw [if_neg h]
    have h2 := not_not.mp h
    apply Config.ext <;>
      first
      | rfl
      | exact h2.symm

theorem readBack_configureBordering (c : Config α) (st : ConfigureState α)
    (e : Bool) :
    readBack e (configureBordering c st).self._aoParametersBuffer =
      { readBack e st.self._aoParametersBuffer with borderingEnabled := c.borderingEnabled } := by
  dsimp only [configureBordering]
  by_cases h : c.borderingEnabled ≠ st.self._aoParametersBuffer.isBorderingEnabled
  · rw [if_pos h]
    (apply Config.ext <;>
      first
      | rfl
      | exact decide_boolToFloat_ne_zero _)
  · rw [if_neg h]
    have h2 := not_not.mp h
    apply Config.ext <;>
      first
      | rfl
      | exact h2.symm

theorem framebuffer_configureRadius (hdr : Header) (c : Config α) (st : ConfigureState α) :
    (configureRadius hdr c st).self._framebuffer = st.self._framebuffer := by
  dsimp only [configureRadius]
  by_cases h : c.radius ≠ st.self._aoParametersBuffer.getRadius
  · rw [if_pos h]
    rfl
  · rw [if_neg h]

theorem configureRadius_eq_self (hdr : Header) (c : Config α) (st : ConfigureState α)
    (h : c.radius = st.self._aoParametersBuffer.getRadius) :
    configureRadius hdr c st = st := by
  dsimp only [configureRadius]
  rw [if_neg (not_not.mpr h)]

theorem framebuffer_configureObscuranceLevel (c : Config α) (st : ConfigureState α) :
    (configureObscuranceLevel c st).self._framebuffer = st.self._framebuffer := by
  dsimp only [configureObscuranceLevel]
  by_cases h : c.obscuranceLevel ≠ st.self._aoParametersBuffer.getObscuranceLevel
  · rw [if_pos h]
    rfl
  · rw [if_neg h]

theorem configureObscuranceLevel_eq_self (c : Config α) (st : ConfigureState α)
    (h : c.obscuranceLevel = st.self._aoParametersBuffer.getObscuranceLevel) :
    configureObscuranceLevel c st = st := by
  dsimp only [configureObscuranceLevel]
  rw [if_neg (not_not.mpr h)]

theorem framebuffer_configureFalloffAngle (c : Config α) (st : ConfigureState α) :
    (configureFalloffAngle c st).self._framebuffer = st.self._framebuffer := by
  dsimp only [configureFalloffAngle]
  by_cases h : c.falloffAngle ≠ st.self._aoParametersBuffer.getFalloffAngle
  · rw [if_pos h]
    rfl
  · rw [if_neg h]

theorem configureFalloffAngle_eq_self (c : Config α) (st : ConfigureState α)
    (h : c.falloffAngle = st.self._aoParametersBuffer.getFalloffAngle) :
    configureFalloffAngle c st = st := by
  dsimp only [configureFalloffAngle]
  rw [if_neg (not_not.mpr h)]

theorem framebuffer_configureEdgeSharpness (c : Config α) (st : ConfigureState α) :
    (configureEdgeSharpness c st).self._framebuffer = st.self._framebuffer := by
  dsimp only [configureEdgeSharpness]
  by_cases h : c.edgeSharpness ≠ st.self._aoParametersBuffer.getEdgeSharpness
  · rw [if_pos h]
    rfl
  · rw [if_neg h]

theorem configureEdgeSharpness_eq_self (c : Config α) (st : ConfigureState α)
    (h : c.edgeSharpness = st.self._aoParametersBuffer.getEdgeSharpness) :
    configureEdgeSharpness c st = st := by
  dsimp only [configureEdgeSharpness]
  rw [if_neg (not_not.mpr h)]

theorem framebuffer_configureBlurDeviation (c : Config α) (st : ConfigureState α) :
    (configureBlurDeviation c st).self._framebuffer = st.self._framebuffer := by
  dsimp only [configureBlurDeviation]
  by_cases h : c.blurDeviation ≠ st.self._aoParametersBuffer.getBlurDeviation
  · rw [if_pos h]
    rfl
  · rw [if_neg h]

theorem configureBlurDeviation_eq_self (c : Config α) (st : ConfigureState α)
    (h : c.blurDeviation = st.self._aoParametersBuffer.getBlurDeviation) :
    configureBlurDeviation c st = st := by
  dsimp only [configureBlurDeviation]
  rw [if_neg (not_not.mpr h)]

theorem framebuffer_configureNumSpiralTurns (c : Config α) (st : ConfigureState α) :
    (configureNumSpiralTurns c st).self._framebuffer = st.self._framebuffer := by
  dsimp only [configureNumSpiralTurns]
  by_cases h : c.numSpiralTurns ≠ st.self._aoParametersBuffer.getNumSpiralTurns
  · rw [if_pos h]
    rfl
  · rw [if_neg h]

theorem configureNumSpiralTurns_eq_self (c : Config α) (st : ConfigureState α)
    (h : c.numSpiralTurns = st.self._aoParametersBuffer.getNumSpiralTurns) :
    configureNumSpiralTurns c st = st := by
  dsimp only [configureNumSpiralTurns]
  rw [if_neg (not_not.mpr h)]

theorem framebuffer_configureNumSamples (m : LibM α) (c : Config α) (st : ConfigureState α) :
    (configureNumSamples m c st).self._framebuffer = st.self._framebuffer := by
  dsimp only [configureNumSamples]
  by_cases h : c.numSamples ≠ st.self._aoParametersBuffer.getNumSamples
  · rw [if_pos h]
    rfl
  · rw [if_neg h]

theorem configureNumSamples_eq_self (m : LibM α) (c : Config α) (st : ConfigureState α)
    (h : c.numSamples = st.self._aoParametersBuffer.getNumSamples) :
    configureNumSamples m c st = st := by
  dsimp only [configureNumSamples]
  rw [if_neg (not_not.mpr h)]

theorem framebuffer_configureFetchMips (c : Config α) (st : ConfigureState α) :
    (configureFetchMips c st).self._framebuffer = st.self._framebuffer := by
  dsimp only [configureFetchMips]
  by_cases h : c.fetchMipsEnabled ≠ st.self._aoParametersBuffer.isFetchMipsEnabled
  · rw [if_pos h]
    rfl
  · rw [if_neg h]

theorem configureFetchMips_eq_self (c : Config α) (st : ConfigureState α)
    (h : c.fetchMipsEnabled = st.self._aoParametersBuffer.isFetchMipsEnabled) :
    configureFetchMips c st = st := by
  dsimp only [configureFetchMips]
  rw [if_neg (not_not.mpr h)]

theorem framebuffer_configurePerspectiveScale (c : Config α) (st : ConfigureState α) :
    (configurePerspectiveScale c st).self._framebuffer = st.self._framebuffer := by
  dsimp only [configurePerspectiveScale]
  by_cases h : c.perspectiveScale ≠ st.self._aoParametersBuffer.getPerspectiveScale
  · rw [if_pos h]
    rfl
  · rw [if_neg h]

theorem configurePerspectiveScale_eq_self (c : Config α) (st : ConfigureState α)
    (h : c.perspectiveScale = st.self._aoParametersBuffer.getPerspectiveScale) :
    configurePerspectiveScale c st = st := by
  dsimp only [configurePerspectiveScale]
  rw [if_neg (not_not.mpr h)]

theorem framebuffer_configureResolutionLevel (hdr : Header) (c : Config α) (st : ConfigureState α) :
    (configureResolutionLevel hdr c st).self._framebuffer = st.self._framebuffer := by
  dsimp only [configureResolutionLevel]
  by_cases h : c.resolutionLevel ≠ st.self._aoParametersBuffer.getResolutionLevel
  · rw [if_pos h]
    split_ifs <;> rfl
  · rw [if_neg h]

theorem configureResolutionLevel_eq_self (hdr : Header) (c : Config α) (st : ConfigureState α)
    (h : c.resolutionLevel = st.self._aoParametersBuffer.getResolutionLevel) :
    configureResolutionLevel hdr c st = st := by
  dsimp only [configureResolutionLevel]
  rw [if_neg (not_not.mpr h)]

theorem framebuffer_configureBlurRadius (c : Config α) (st : ConfigureState α) :
    (configureBlurRadius c st).self._framebuffer = st.self._framebuffer := by
  dsimp only [configureBlurRadius]
  by_cases h : c.blurRadius ≠ st.self._aoParametersBuffer.getBlurRadius
  · rw [if_pos h]
    rfl
  · rw [if_neg h]

theorem configureBlurRadius_eq_self (c : Config α) (st : ConfigureState α)
    (h : c.blurRadius = st.self._aoParametersBuffer.getBlurRadius) :
    configureBlurRadius c st = st := by
  dsimp only [configureBlurRadius]
  rw [if_neg (not_not.mpr h)]

theorem framebuffer_configureDithering (c : Config α) (st : ConfigureState α) :
    (configureDithering c st).self._framebuffer = st.self._framebuffer := by
  dsimp only [configureDithering]
  by_cases h : c.ditheringEnabled ≠ st.self._aoParametersBuffer.isDitheringEnabled
  · rw [if_pos h]
    rfl
  · rw [if_neg h]

theorem configureDithering_eq_self (c : Config α) (st : ConfigureState α)
    (h : c.ditheringEnabled = st.self._aoParametersBuffer.isDitheringEnabled) :
    configureDithering c st = st := by
  dsimp only [configureDithering]
  rw [if_neg (not_not.mpr h)]

theorem framebuffer_configureBordering (c : Config α) (st : ConfigureState α) :
    (configureBordering c st).self._framebuffer = st.self._framebuffer := by
  dsimp only [configureBordering]
  by_cases h : c.borderingEnabled ≠ st.self._aoParametersBuffer.isBorderingEnabled
  · rw [if_pos h]
    rfl
  · rw [if_neg h]

theorem configureBordering_eq_self (c : Config α) (st : ConfigureState α)
    (h : c.borderingEnabled = st.self._aoParametersBuffer.isBorderingEnabled) :
    configureBordering c st = st := by
  dsimp only [configureBordering]
  rw [if_neg (not_not.mpr h)]

theorem readBack_configureFramebuffer (hdr : Header) (st : ConfigureState α) (e : Bool) :
    readBack e (configureFramebuffer hdr st).self._aoParametersBuffer =
      readBack e st.self._aoParametersBuffer := by
  unfold configureFramebuffer
  split_ifs <;> rfl

theorem framebuffer_configureFramebuffer (hdr : Header) (st : ConfigureState α) :
    (configureFramebuffer hdr st).self._framebuffer.isSome = true := by
  unfold configureFramebuffer
  split_ifs with h
  · rfl
  · cases hfb : st.self._framebuffer with
    | none => simp [hfb] at h
    | some fb => rfl

theorem configureFramebuffer_eq_self (hdr : Header) (st : ConfigureState α)
    (h : st.self._framebuffer.isSome = true) : configureFramebuffer hdr st = st := by
  unfold configureFramebuffer
  cases hfb : st.self._framebuffer with
  | none => simp [hfb] at h
  | some fb => simp

theorem readBack_configureFields (hdr : Header) (m : LibM α) (c : Config α)
    (h1 : roundToFloat c.numSamples = c.numSamples)
    (h2 : roundToFloat c.resolutionLevel = c.resolutionLevel)
    (h3 : roundToFloat c.blurRadius = c.blurRadius)
    (self : AmbientOcclusionEffect α) :
    readBack c.enabled (configureFields hdr m c self).self._aoParametersBuffer = c := by
  simp only [configureFields, readBack_configureBordering, readBack_configureDithering,
    readBack_configureBlurRadius_exact c h3, readBack_configureResolutionLevel_exact hdr c h2,
    readBack_configurePerspectiveScale, readBack_configureFramebuffer,
    readBack_configureFetchMips, readBack_configureNumSamples_exact m c h1,
    readBack_configureNumSpiralTurns,
    readBack_configureBlurDeviation, readBack_configureEdgeSharpness,
    readBack_configureFalloffAngle, readBack_configureObscuranceLevel,
    readBack_configureRadius]
  rfl

theorem framebuffer_configureFields (hdr : Header) (m : LibM α) (c : Config α)
    (self : AmbientOcclusionEffect α) :
    (configureFields hdr m c self).self._framebuffer.isSome = true := by
  simp only [configureFields, framebuffer_configureBordering, framebuffer_configureDithering,
    framebuffer_configureBlurRadius, framebuffer_configureResolutionLevel,
    framebuffer_configurePerspectiveScale, framebuffer_configureFramebuffer]

theorem configureFields_eq_self (hdr : Header) (m : LibM α) (c : Config α)
    (self : AmbientOcclusionEffect α)
    (hview : readBack c.enabled self._aoParametersBuffer = c)
    (hfb : self._framebuffer.isSome = true) :
    configureFields hdr m c self =
      { self := self
        log := [Event.setAmbientOcclusionEnabled c.enabled]
        shouldUpdateGaussian := false
        shouldUpdateBlurs := false } := by
  have h1 : c.radius = self._aoParametersBuffer.getRadius :=
    (congrArg Config.radius hview).symm
  have h2 : c.obscuranceLevel = self._aoParametersBuffer.getObscuranceLevel :=
    (congrArg Config.obscuranceLevel hview).symm
  have h3 : c.falloffAngle = self._aoParametersBuffer.getFalloffAngle :=
    (congrArg Config.falloffAngle hview).symm
  have h4 : c.edgeSharpness = self._aoParametersBuffer.getEdgeSharpness :=
    (congrArg Config.edgeSharpness hview).symm
  have h5 : c.blurDeviation = self._aoParametersBuffer.getBlurDeviation :=
    (congrArg Config.blurDeviation hview).symm
  have h6 : c.numSpiralTurns = self._aoParametersBuffer.getNumSpiralTurns :=
    (congrArg Config.numSpiralTurns hview).symm
  have h7 : c.numSamples = self._aoParametersBuffer.getNumSamples :=
    (congrArg Config.numSamples hview).symm
  have h8 : c.fetchMipsEnabled = self._aoParametersBuffer.isFetchMipsEnabled :=
    (congrArg Config.fetchMipsEnabled hview).symm
  have h9 : c.perspectiveScale = self._aoParametersBuffer.getPerspectiveScale :=
    (congrArg Config.perspectiveScale hview).symm
  have h10 : c.resolutionLevel = self._aoParametersBuffer.getResolutionLevel :=
    (congrArg Config.resolutionLevel hview).symm
  have h11 : c.blurRadius = self._aoParametersBuffer.getBlurRadius :=
    (congrArg Config.blurRadius hview).symm
  have h12 : c.ditheringEnabled = self._aoParametersBuffer.isDitheringEnabled :=
    (congrArg Config.ditheringEnabled hview).symm
  have h13 : c.borderingEnabled = self._aoParametersBuffer.isBorderingEnabled :=
    (congrArg Config.borderingEnabled hview).symm
  dsimp only [configureFields]
  rw [configureRadius_eq_self hdr c _ h1, configureObscuranceLevel_eq_self c _ h2,
    configureFalloffAngle_eq_self c _ h3, configureEdgeSharpness_eq_self c _ h4,
    configureBlurDeviation_eq_self c _ h5, configureNumSpiralTurns_eq_self c _ h6,
    configureNumSamples_eq_self m c _ h7, configureFetchMips_eq_self c _ h8,
    configureFramebuffer_eq_self hdr _ hfb, configurePerspectiveScale_eq_self c _ h9,
    configureResolutionLevel_eq_self hdr c _ h10, configureBlurRadius_eq_self c _ h11,
    configureDithering_eq_self c _ h12, configureBordering_eq_self c _ h13]

theorem updateGaussianDistribution_ok (hdr : Header) (m : LibM α) (st st2 : ConfigureState α)
    (h : updateGaussianDistribution hdr m st = .ok st2) (e : Bool) :
    readBack e st2.self._aoParametersBuffer = readBack e st.self._aoParametersBuffer ∧
    st2.self._framebuffer = st.self._framebuffer ∧
    st2.shouldUpdateBlurs = st.shouldUpdateBlurs := by
  unfold updateGaussianDistribution at h
  dsimp only at h
  split at h
  · exact absurd h (by simp)
  · simp only [Except.ok.injEq] at h
    subst h
    exact ⟨rfl, rfl, rfl⟩

theorem updateBlurParameters_ok (st st2 : ConfigureState α)
    (h : updateBlurParameters st = .ok st2) (e : Bool) :
    readBack e st2.self._aoParametersBuffer = readBack e st.self._aoParametersBuffer ∧
    st2.self._framebuffer = st.self._framebuffer := by
  unfold updateBlurParameters at h
  dsimp only at h
  split at h
  · exact absurd h (by simp)
  · simp only [Except.ok.injEq] at h
    subst h
    exact ⟨rfl, rfl⟩

theorem optionalGaussian_ok (hdr : Header) (m : LibM α) (st st2 : ConfigureState α)
    (h : (if st.shouldUpdateGaussian then updateGaussianDistribution hdr m st else .ok st)
      = .ok st2) (e : Bool) :
    readBack e st2.self._aoParametersBuffer = readBack e st.self._aoParametersBuffer ∧
    st2.self._framebuffer = st.self._framebuffer := by
  split_ifs at h
  · obtain ⟨h1, h2, -⟩ := updateGaussianDistribution_ok hdr m st st2 h e
    exact ⟨h1, h2⟩
  · simp only [Except.ok.injEq] at h
    subst h
    exact ⟨rfl, rfl⟩

theorem optionalBlur_ok (st st2 : ConfigureState α)
    (h : (if st.shouldUpdateBlurs then updateBlurParameters st else .ok st) = .ok st2)
    (e : Bool) :
    readBack e st2.self._aoParametersBuffer = readBack e st.self._aoParametersBuffer ∧
    st2.self._framebuffer = st.self._framebuffer := by
  split_ifs at h
  · exact updateBlurParameters_ok st st2 h e
  · simp only [Except.ok.injEq] at h
    subst h
    exact ⟨rfl, rfl⟩

theorem getBlurRadius_configureFields_nonneg (hdr : Header) (m : LibM α) (c : Config α)
    (self : AmbientOcclusionEffect α) (hr : 0 ≤ c.blurRadius) :
    0 ≤ (configureFields hdr m c self).self._aoParametersBuffer.getBlurRadius := by
  have key : 0 ≤
      (readBack false (configureFields hdr m c self).self._aoParametersBuffer).blurRadius := by
    simp only [configureFields, readBack_configureBordering, readBack_configureDithering,
      readBack_configureBlurRadius]
    split_ifs
    · exact roundToFloat_nonneg _ hr
    · exact hr
  exact key

theorem configure_configured (hdr : Header) (m : LibM α) (c : Config α)
    (h1 : roundToFloat c.numSamples = c.numSamples)
    (h2 : roundToFloat c.resolutionLevel = c.resolutionLevel)
    (h3 : roundToFloat c.blurRadius = c.blurRadius)
    (self self1 : AmbientOcclusionEffect α) (log1 : List Event)
    (h : configure hdr m c self = .ok (self1, log1)) :
    readBack c.enabled self1._aoParametersBuffer = c ∧ self1._framebuffer.isSome = true := by
  have hv := readBack_configureFields hdr m c h1 h2 h3 self
  have hf := framebuffer_configureFields hdr m c self
  unfold configure at h
  dsimp only at h
  cases hG : (if (configureFields hdr m c self).shouldUpdateGaussian then
      updateGaussianDistribution hdr m (configureFields hdr m c self)
      else .ok (configureFields hdr m c self)) with
  | error e => rw [hG] at h; simp at h
  | ok stG =>
    rw [hG] at h
    dsimp only at h
    obtain ⟨g1, g2⟩ := optionalGaussian_ok hdr m _ stG hG c.enabled
    cases hB : (if stG.shouldUpdateBlurs then updateBlurParameters stG else .ok stG) with
    | error e => rw [hB] at h; simp at h
    | ok stB =>
      rw [hB] at h
      simp only [Except.ok.injEq, Prod.mk.injEq] at h
      obtain ⟨b1, b2⟩ := optionalBlur_ok stG stB hB c.enabled
      rw [← h.1, b1, g1, hv, b2, g2, hf]
      exact ⟨rfl, rfl⟩

theorem configure_of_configured (hdr : Header) (m : LibM α) (c : Config α)
    (self : AmbientOcclusionEffect α)
    (hview : readBack c.enabled self._aoParametersBuffer = c)
    (hfb : self._framebuffer.isSome = true) :
    configure hdr m c self = .ok (self, [Event.setAmbientOcclusionEnabled c.enabled]) := by
  unfold configure
  rw [configureFields_eq_self hdr m c self hview hfb]
  rfl

theorem evalSamplingInto_returns (m : LibM α) (coefs : List α) (L : Nat) (r : Int) (d : α)
    (hr : 0 ≤ r) : ∃ out, GaussianDistribution.evalSamplingInto m coefs L r d = .ok out := by
  obtain ⟨n, rfl⟩ := Int.eq_ofNat_of_zero_le hr
  obtain ⟨taps, hok, -⟩ := GaussianDistribution.evalSampling_nonneg m d n
  unfold GaussianDistribution.evalSamplingInto
  rw [hok]
  dsimp only
  split_ifs
  · exact ⟨_, rfl⟩
  · exact ⟨_, rfl⟩

theorem configure_returns (hdr : Header) (m : LibM α) (c : Config α)
    (self : AmbientOcclusionEffect α) (hr : 0 ≤ c.blurRadius) :
    ∃ r, configure hdr m c self = .ok r := by
  have hf := framebuffer_configureFields hdr m c self
  have hrad := getBlurRadius_configureFields_nonneg hdr m c self hr
  have hG : ∃ stG, (if (configureFields hdr m c self).shouldUpdateGaussian then
      updateGaussianDistribution hdr m (configureFields hdr m c self)
      else .ok (configureFields hdr m c self)) = .ok stG := by
    split_ifs
    · unfold updateGaussianDistribution
      dsimp only
      obtain ⟨out, hout⟩ := evalSamplingInto_returns m
        (configureFields hdr m c self).self._aoParametersBuffer._blurFilterTaps
        hdr.SSAO_BLUR_GAUSSIAN_COEFS_COUNT
        (configureFields hdr m c self).self._aoParametersBuffer.getBlurRadius
        (configureFields hdr m c self).self._aoParametersBuffer.getBlurDeviation
        hrad
      rw [hout]
      exact ⟨_, rfl⟩
    · exact ⟨_, rfl⟩
  obtain ⟨stG, hG⟩ := hG
  obtain ⟨-, g2⟩ := optionalGaussian_ok hdr m _ stG hG c.enabled
  have hB : ∃ stB, (if stG.shouldUpdateBlurs then updateBlurParameters stG else .ok stG)
      = .ok stB := by
    split_ifs
    · unfold updateBlurParameters
      dsimp only
      cases hfb : stG.self._framebuffer with
      | none => rw [← g2, hfb] at hf; simp at hf
      | some fb => exact ⟨_, rfl⟩
    · exact ⟨_, rfl⟩
  obtain ⟨stB, hB⟩ := hB
  unfold configure
  dsimp only
  rw [hG]
  dsimp only
  rw [hB]
  exact ⟨_, rfl⟩

end AmbientOcclusionEffect

/-- C7, as amended: for every configuration `c` with finite field values whose integer fields
`numSamples`, `resolutionLevel` and `blurRadius` are exactly representable as a `float` (every
`|n| <= 2^24` is), a call `configure(c)` made immediately after a call `configure(c)` that
returned leaves the effect unchanged and performs nothing but the unconditional
`setAmbientOcclusionEnabled`: no parameter buffer is edited, the sample table is not
regenerated, and neither `updateGaussianDistribution` nor `updateBlurParameters` is invoked.
The first call returns whenever `blurRadius >= 0`. -/
theorem configure_twice (hdr : Header) (m : LibM α) (c : Config α)
    (self : AmbientOcclusionEffect α)
    (h1 : roundToFloat c.numSamples = c.numSamples)
    (h2 : roundToFloat c.resolutionLevel = c.resolutionLevel)
    (h3 : roundToFloat c.blurRadius = c.blurRadius) :
    (0 ≤ c.blurRadius → ∃ r, AmbientOcclusionEffect.configure hdr m c self = .ok r) ∧
    ∀ self1 log1, AmbientOcclusionEffect.configure hdr m c self = .ok (self1, log1) →
      AmbientOcclusionEffect.configure hdr m c self1 =
        .ok (self1, [Event.setAmbientOcclusionEnabled c.enabled]) := by
  refine ⟨AmbientOcclusionEffect.configure_returns hdr m c self, fun self1 log1 h => ?_⟩
  obtain ⟨hv, hf⟩ :=
    AmbientOcclusionEffect.configure_configured hdr m c h1 h2 h3 self self1 log1 h
  exact AmbientOcclusionEffect.configure_of_configured hdr m c self1 hv hf

/-- The default configuration applied twice to a freshly constructed effect (quad split and
horizon-based estimator on, 16 blur coefficients, 64 samples): the first call returns and the
second one changes nothing. -/
theorem configure_twice_witness :
    roundToFloat (Config.default (α := ℝ) ⟨1, 1, 4, 16, ⟨0, 0⟩, 0, 64⟩).numSamples =
      (Config.default (α := ℝ) ⟨1, 1, 4, 16, ⟨0, 0⟩, 0, 64⟩).numSamples ∧
    roundToFloat (Config.default (α := ℝ) ⟨1, 1, 4, 16, ⟨0, 0⟩, 0, 64⟩).resolutionLevel =
      (Config.default (α := ℝ) ⟨1, 1, 4, 16, ⟨0, 0⟩, 0, 64⟩).resolutionLevel ∧
    roundToFloat (Config.default (α := ℝ) ⟨1, 1, 4, 16, ⟨0, 0⟩, 0, 64⟩).blurRadius =
      (Config.default (α := ℝ) ⟨1, 1, 4, 16, ⟨0, 0⟩, 0, 64⟩).blurRadius ∧
    (0 : Int) ≤ (Config.default (α := ℝ) ⟨1, 1, 4, 16, ⟨0, 0⟩, 0, 64⟩).blurRadius ∧
    ∃ self1 log1,
      AmbientOcclusionEffect.configure ⟨1, 1, 4, 16, ⟨0, 0⟩, 0, 64⟩ realLibM
        (Config.default ⟨1, 1, 4, 16, ⟨0, 0⟩, 0, 64⟩)
        (AmbientOcclusionEffect.new ⟨1, 1, 4, 16, ⟨0, 0⟩, 0, 64⟩) = .ok (self1, log1) ∧
      AmbientOcclusionEffect.configure ⟨1, 1, 4, 16, ⟨0, 0⟩, 0, 64⟩ realLibM
        (Config.default ⟨1, 1, 4, 16, ⟨0, 0⟩, 0, 64⟩) self1 =
        .ok (self1, [Event.setAmbientOcclusionEnabled false]) := by
  have h0 : (0 : Int) ≤ (Config.default (α := ℝ) ⟨1, 1, 4, 16, ⟨0, 0⟩, 0, 64⟩).blurRadius := by
    simp [Config.default]
  have e1 : roundToFloat (Config.default (α := ℝ) ⟨1, 1, 4, 16, ⟨0, 0⟩, 0, 64⟩).numSamples =
      (Config.default (α := ℝ) ⟨1, 1, 4, 16, ⟨0, 0⟩, 0, 64⟩).numSamples :=
    roundToFloat_of_le _ (by simp [Config.default])
  have e2 : roundToFloat (Config.default (α := ℝ) ⟨1, 1, 4, 16, ⟨0, 0⟩, 0, 64⟩).resolutionLevel =
      (Config.default (α := ℝ) ⟨1, 1, 4, 16, ⟨0, 0⟩, 0, 64⟩).resolutionLevel :=
    roundToFloat_of_le _ (by simp [Config.default])
  have e3 : roundToFloat (Config.default (α := ℝ) ⟨1, 1, 4, 16, ⟨0, 0⟩, 0, 64⟩).blurRadius =
      (Config.default (α := ℝ) ⟨1, 1, 4, 16, ⟨0, 0⟩, 0, 64⟩).blurRadius :=
    roundToFloat_of_le _ (by simp [Config.default])
  obtain ⟨h1, h2⟩ := configure_twice ⟨1, 1, 4, 16, ⟨0, 0⟩, 0, 64⟩ realLibM
    (Config.default ⟨1, 1, 4, 16, ⟨0, 0⟩, 0, 64⟩)
    (AmbientOcclusionEffect.new ⟨1, 1, 4, 16, ⟨0, 0⟩, 0, 64⟩) e1 e2 e3
  obtain ⟨⟨self1, log1⟩, hr⟩ := h1 h0
  exact ⟨e1, e2, e3, h0, self1, log1, hr, h2 self1 log1 hr⟩

end Configure

/-! ## C9, C10: the passes recorded by `run` -/

section Run

variable {α : Type} [LinearOrderedField α]

/-- The four split viewports derived from the occlusion viewport `v` with a shift of 1. -/
theorem runBatch_drawCalls_split (hdr : Header) (hq : hdr.SSAO_USE_QUAD_SPLIT ≠ 0)
    (occlusionDepthTexture : TextureRef) (sourceViewport v firstBlurViewport : IVec4)
    (resolutionScale : α) :
    drawCalls (AmbientOcclusionEffect.runBatch hdr occlusionDepthTexture sourceViewport v
      firstBlurViewport resolutionScale) =
      [ (some Pipeline.buildNormals, some v),
        (some Pipeline.occlusion, some (v.shiftRight hdr.SSAO_USE_QUAD_SPLIT)),
        (some Pipeline.occlusion, some
          { v.shiftRight hdr.SSAO_USE_QUAD_SPLIT with
            x := (v.shiftRight hdr.SSAO_USE_QUAD_SPLIT).x +
              (v.shiftRight hdr.SSAO_USE_QUAD_SPLIT).z }),
        (some Pipeline.occlusion, some
          { v.shiftRight hdr.SSAO_USE_QUAD_SPLIT with
            x := (v.shiftRight hdr.SSAO_USE_QUAD_SPLIT).x +
              (v.shiftRight hdr.SSAO_USE_QUAD_SPLIT).z
            y := (v.shiftRight hdr.SSAO_USE_QUAD_SPLIT).y +
              (v.shiftRight hdr.SSAO_USE_QUAD_SPLIT).w }),
        (some Pipeline.occlusion, some
          { v.shiftRight hdr.SSAO_USE_QUAD_SPLIT with
            x := 0
            y := (v.shiftRight hdr.SSAO_USE_QUAD_SPLIT).y +
              (v.shiftRight hdr.SSAO_USE_QUAD_SPLIT).w }),
        (some Pipeline.gather, some v),
        (some Pipeline.hBlur, some firstBlurViewport),
        (some Pipeline.vBlur, some sourceViewport) ] := by
  by_cases hh : hdr.SSAO_USE_HORIZON_BASED = 0 <;>
    simp [AmbientOcclusionEffect.runBatch, drawCalls, drawCallsFrom, hq, hh]

/-- Whenever `run` completes, the batch it has recorded is `runBatch` at the viewports derived
from `args->_viewport` and the resolution level stored in the parameter block. -/
theorem run_records_runBatch [FloorRing α] (hdr : Header) (getDimensions : Nat → IVec2)
    (viewport : IVec4) (linearDepthTexture : TexturePointer)
    (self self1 : AmbientOcclusionEffect α) (batch : List (Command α))
    (h : AmbientOcclusionEffect.run hdr getDimensions viewport linearDepthTexture self
      = .ok (self1, batch)) :
    batch = AmbientOcclusionEffect.runBatch hdr
      (if self._aoParametersBuffer.getResolutionLevel > 0 then TextureRef.halfLinearDepthTexture
        else TextureRef.linearDepthTexture)
      viewport
      (AmbientOcclusionEffect.runViewports viewport self._aoParametersBuffer.getResolutionLevel).1
      (AmbientOcclusionEffect.runViewports viewport self._aoParametersBuffer.getResolutionLevel).2
      ((1 / 2 : α) ^ self._aoParametersBuffer.getResolutionLevel) := by
  unfold AmbientOcclusionEffect.run at h
  dsimp only at h
  split at h
  · exact absurd h (by simp)
  · split at h
    · exact absurd h (by simp)
    · simp only [Except.ok.injEq, Prod.mk.injEq] at h
      rw [← h.2]
      split_ifs <;> rfl

theorem shiftRight_one (a : Int) : a >>> (1 : Nat) = a / 2 := by
  rw [Int.shiftRight_eq_div_pow]
  norm_num

/-- C9, as amended: with split rendering enabled (`SSAO_USE_QUAD_SPLIT = 1`), for every
occlusion viewport `(x, y, w, h)` with `x >= 0` the four sub-viewports of the four occlusion
draws are pairwise non-overlapping and their areas sum to `4 * (w >> 1) * (h >> 1)`, which is
`w * h` when `w` and `h` are both even. -/
theorem split_viewports_disjoint_area (hdr : Header) (hq : hdr.SSAO_USE_QUAD_SPLIT = 1)
    (occlusionDepthTexture : TextureRef) (sourceViewport firstBlurViewport : IVec4)
    (resolutionScale : α) (x y w h : Int) (hx : 0 ≤ x) :
    ∃ q0 q1 q2 q3 : IVec4,
      occlusionDrawViewports (AmbientOcclusionEffect.runBatch hdr occlusionDepthTexture
        sourceViewport ⟨x, y, w, h⟩ firstBlurViewport resolutionScale) =
        [some q0, some q1, some q2, some q3] ∧
      List.Pairwise (fun a b => ¬ IVec4.overlaps a b) [q0, q1, q2, q3] ∧
      q0.area + q1.area + q2.area + q3.area = 4 * ((w >>> (1 : Nat)) * (h >>> (1 : Nat))) ∧
      (w % 2 = 0 → h % 2 = 0 → q0.area + q1.area + q2.area + q3.area = w * h) := by
  have hx2 : 0 ≤ x / 2 := by omega
  refine ⟨⟨x / 2, y / 2, w / 2, h / 2⟩, ⟨x / 2 + w / 2, y / 2, w / 2, h / 2⟩,
    ⟨x / 2 + w / 2, y / 2 + h / 2, w / 2, h / 2⟩, ⟨0, y / 2 + h / 2, w / 2, h / 2⟩, ?_, ?_, ?_, ?_⟩
  · rw [occlusionDrawViewports, runBatch_drawCalls_split hdr (by omega)]
    simp [hq, IVec4.shiftRight, shiftRight_one]
  · simp only [List.pairwise_cons, List.mem_cons, List.mem_singleton, forall_eq_or_imp, forall_eq,
      List.not_mem_nil, IsEmpty.forall_iff, implies_true, List.Pairwise.nil, and_true,
      IVec4.overlaps, IVec4.covers, not_exists, not_and]
    refine ⟨⟨?_, ?_, ?_⟩, ⟨?_, ?_⟩, ?_⟩ <;> intro px py <;> omega
  · simp only [IVec4.area, shiftRight_one]
    ring
  · intro hw hh
    have e1 : 2 * (w / 2) = w := by omega
    have e2 : 2 * (h / 2) = h := by omega
    simp only [IVec4.area]
    calc w / 2 * (h / 2) + w / 2 * (h / 2) + w / 2 * (h / 2) + w / 2 * (h / 2)
        = (2 * (w / 2)) * (2 * (h / 2)) := by ring
      _ = w * h := by rw [e1, e2]

/-- A 1920 x 1080 occlusion viewport at the origin is split into four disjoint quadrants that
cover its area. -/
theorem split_viewports_disjoint_area_witness :
    (1 : Nat) = 1 ∧ (0 : Int) ≤ 0 ∧
    ∃ q0 q1 q2 q3 : IVec4,
      occlusionDrawViewports (AmbientOcclusionEffect.runBatch (α := ℚ)
        ⟨1, 1, 4, 16, ⟨0, 0⟩, 0, 64⟩ TextureRef.linearDepthTexture
        ⟨0, 0, 1920, 1080⟩ ⟨0, 0, 1920, 1080⟩ ⟨0, 0, 1920, 1080⟩ 1) =
        [some q0, some q1, some q2, some q3] ∧
      List.Pairwise (fun a b => ¬ IVec4.overlaps a b) [q0, q1, q2, q3] ∧
      q0.area + q1.area + q2.area + q3.area = 4 * (((1920 : Int) >>> (1 : Nat)) * ((1080 : Int) >>> (1 : Nat))) ∧
      ((1920 : Int) % 2 = 0 → (1080 : Int) % 2 = 0 →
        q0.area + q1.area + q2.area + q3.area = 1920 * 1080) :=
  ⟨rfl, le_rfl, split_viewports_disjoint_area ⟨1, 1, 4, 16, ⟨0, 0⟩, 0, 64⟩ rfl
    TextureRef.linearDepthTexture ⟨0, 0, 1920, 1080⟩ ⟨0, 0, 1920, 1080⟩ 1 0 0 1920 1080 le_rfl⟩

/-- C9 fails as stated: for the occlusion viewport `(0, 0, 3, 2)` the four occlusion draws
use four sub-viewports of size `1 x 1`, whose areas sum to 4 and not to `3 * 2 = 6`. -/
theorem split_viewports_odd_width_area :
    occlusionDrawViewports (AmbientOcclusionEffect.runBatch (α := ℚ)
      ⟨1, 1, 4, 16, ⟨0, 0⟩, 0, 64⟩ TextureRef.linearDepthTexture
      ⟨0, 0, 3, 2⟩ ⟨0, 0, 3, 2⟩ ⟨0, 0, 3, 2⟩ 1) =
      [some ⟨0, 0, 1, 1⟩, some ⟨1, 0, 1, 1⟩, some ⟨1, 1, 1, 1⟩, some ⟨0, 1, 1, 1⟩] ∧
    (IVec4.area ⟨0, 0, 1, 1⟩ + IVec4.area ⟨1, 0, 1, 1⟩ + IVec4.area ⟨1, 1, 1, 1⟩ +
      IVec4.area ⟨0, 1, 1, 1⟩ ≠ IVec4.area ⟨0, 0, 3, 2⟩) := by
  constructor
  · rw [occlusionDrawViewports, runBatch_drawCalls_split _ (by decide)]
    simp [IVec4.shiftRight, shiftRight_one]
  · decide

/-- For an occlusion viewport with a negative origin, here `(-2, 0, 4, 4)`, the third and
fourth sub-viewports share the pixel `(1, 2)`: the fourth is placed at `x = 0`. -/
theorem split_viewports_negative_origin_overlap :
    occlusionDrawViewports (AmbientOcclusionEffect.runBatch (α := ℚ)
      ⟨1, 1, 4, 16, ⟨0, 0⟩, 0, 64⟩ TextureRef.linearDepthTexture
      ⟨-2, 0, 4, 4⟩ ⟨-2, 0, 4, 4⟩ ⟨-2, 0, 4, 4⟩ 1) =
      [some ⟨-1, 0, 2, 2⟩, some ⟨1, 0, 2, 2⟩, some ⟨1, 2, 2, 2⟩, some ⟨0, 2, 2, 2⟩] ∧
    IVec4.overlaps ⟨1, 2, 2, 2⟩ ⟨0, 2, 2, 2⟩ := by
  constructor
  · rw [occlusionDrawViewports, runBatch_drawCalls_split _ (by decide)]
    simp [IVec4.shiftRight, shiftRight_one]
  · exact ⟨1, 2, by simp [IVec4.covers], by simp [IVec4.covers]⟩

end Run

/-! ## C14: negative sampling radius -/

/-- C14 (the code departs from it): for the sampling radius `-1` the vector built by
`std::vector<float> coefs(samplingRadius + 1, 0.0f)` is empty and the branch
`samplingRadius <= 0` writes `coefs[0]` out of range; for every radius `r <= -2` the
constructor is asked for a negative count and throws.  No negative radius yields `[1.0]`. -/
theorem evalSampling_negative {α : Type} [LinearOrderedField α] (m : LibM α) (d : α) :
    GaussianDistribution.evalSampling m (-1) d = .error Fault.outOfRangeWrite ∧
    (∀ r : Int, r ≤ -2 → GaussianDistribution.evalSampling m r d = .error Fault.lengthError) ∧
    ∀ r : Int, r < 0 → GaussianDistribution.evalSampling m r d ≠ .ok [1] := by
  have h1 : GaussianDistribution.evalSampling m (-1) d = .error Fault.outOfRangeWrite := by
    simp [GaussianDistribution.evalSampling]
  have h2 : ∀ r : Int, r ≤ -2 →
      GaussianDistribution.evalSampling m r d = .error Fault.lengthError := by
    intro r hr
    have : r + 1 < 0 := by omega
    simp [GaussianDistribution.evalSampling, this]
  refine ⟨h1, h2, fun r hr => ?_⟩
  rcases (by omega : r = -1 ∨ r ≤ -2) with h | h
  · subst h
    rw [h1]
    simp
  · rw [h2 r h]
    simp

/-! ## C11: the normal buffer follows the resolution level -/

namespace AmbientOcclusionFramebuffer

theorem getNormalFramebufferTraced_eq (self : AmbientOcclusionFramebuffer) (level : Int) :
    ((self.getNormalFramebufferTraced level).1, (self.getNormalFramebufferTraced level).2.1) =
      self.getNormalFramebuffer level := by
  unfold getNormalFramebufferTraced getNormalFramebuffer
  split_ifs <;> rfl

theorem getNormalTextureTraced_eq (self : AmbientOcclusionFramebuffer) (level : Int) :
    ((self.getNormalTextureTraced level).1, (self.getNormalTextureTraced level).2.1) =
      self.getNormalTexture level := by
  unfold getNormalTextureTraced getNormalTexture
  split_ifs <;> rfl

theorem getNormalFramebuffer_post (self : AmbientOcclusionFramebuffer) (level : Int) :
    (self.getNormalFramebuffer level).2._normalFramebuffer.isNone = false ∧
    (self.getNormalFramebuffer level).2._resolutionLevel = level ∧
    (self.getNormalFramebuffer level).2._frameSize = self._frameSize := by
  dsimp only [getNormalFramebuffer]
  by_cases h : self._normalFramebuffer.isNone = true ∨ level ≠ self._resolutionLevel
  · rw [if_pos h]
    exact ⟨rfl, rfl, rfl⟩
  · rw [if_neg h]
    have h1 : self._normalFramebuffer.isNone = false := by
      cases hfb : self._normalFramebuffer.isNone with
      | true => exact absurd (Or.inl hfb) h
      | false => rfl
    have h2 : self._resolutionLevel = level := by
      by_contra hne
      exact h (Or.inr (fun e => hne e.symm))
    exact ⟨h1, h2, rfl⟩

theorem getNormalTexture_post (self : AmbientOcclusionFramebuffer) (level : Int) :
    (self.getNormalTexture level).2._normalTexture.isNone = false ∧
    (self.getNormalTexture level).2._resolutionLevel = level ∧
    (self.getNormalTexture level).2._frameSize = self._frameSize := by
  dsimp only [getNormalTexture]
  by_cases h : self._normalTexture.isNone = true ∨ level ≠ self._resolutionLevel
  · rw [if_pos h]
    exact ⟨rfl, rfl, rfl⟩
  · rw [if_neg h]
    have h1 : self._normalTexture.isNone = false := by
      cases hfb : self._normalTexture.isNone with
      | true => exact absurd (Or.inl hfb) h
      | false => rfl
    have h2 : self._resolutionLevel = level := by
      by_contra hne
      exact h (Or.inr (fun e => hne e.symm))
    exact ⟨h1, h2, rfl⟩

theorem getNormalFramebufferTraced_of_ne (self : AmbientOcclusionFramebuffer) (level : Int)
    (h : level ≠ self._resolutionLevel) :
    self.getNormalFramebufferTraced level =
      ((self.allocateNormal level)._normalFramebuffer, self.allocateNormal level, [level]) := by
  dsimp only [getNormalFramebufferTraced]
  rw [if_pos (Or.inr h)]

theorem getNormalFramebufferTraced_of_same (self : AmbientOcclusionFramebuffer)
    (h : self._normalFramebuffer.isNone = false) :
    self.getNormalFramebufferTraced self._resolutionLevel = (self._normalFramebuffer, self, []) := by
  dsimp only [getNormalFramebufferTraced]
  rw [if_neg (by simp [h])]

theorem getNormalTextureTraced_of_ne (self : AmbientOcclusionFramebuffer) (level : Int)
    (h : level ≠ self._resolutionLevel) :
    self.getNormalTextureTraced level =
      ((self.allocateNormal level)._normalTexture, self.allocateNormal level, [level]) := by
  dsimp only [getNormalTextureTraced]
  rw [if_pos (Or.inr h)]

theorem getNormalTextureTraced_of_same (self : AmbientOcclusionFramebuffer)
    (h : self._normalTexture.isNone = false) :
    self.getNormalTextureTraced self._resolutionLevel = (self._normalTexture, self, []) := by
  dsimp only [getNormalTextureTraced]
  rw [if_neg (by simp [h])]

theorem allocateNormal_natCast (self : AmbientOcclusionFramebuffer) (L : Nat) :
    self.allocateNormal (L : Int) =
      { self with
        _normalTexture := some ⟨.COLOR_R11G11B10, self._frameSize.x >>> L, self._frameSize.y >>> L,
          .FILTER_MIN_MAG_POINT⟩
        _normalFramebuffer := some ⟨.ssaoNormals, ⟨.COLOR_R11G11B10, self._frameSize.x >>> L,
          self._frameSize.y >>> L, .FILTER_MIN_MAG_POINT⟩⟩
        _resolutionLevel := (L : Int) } := by
  simp [allocateNormal]

end AmbientOcclusionFramebuffer

/-- C11: for resolution levels `L1 != L2` and any stored frame size `(w, h)`, after
`getNormalFramebuffer(L1)` the call `getNormalFramebuffer(L2)` runs `allocate(L2)`: the normal
texture and framebuffer are rebuilt with dimensions `(w >> L2, h >> L2)` and the recorded level
becomes `L2`, whatever the dimensions were before; a repeated call with the level `L1` makes
no allocation and leaves the manager unchanged.  The same holds for `getNormalTexture`. -/
theorem normal_buffer_follows_level (self : AmbientOcclusionFramebuffer) (L1 L2 : Nat)
    (h : L1 ≠ L2) :
    (((self.getNormalFramebuffer L1).2.getNormalFramebufferTraced L2).2.2 = [(L2 : Int)] ∧
      ((self.getNormalFramebuffer L1).2.getNormalFramebuffer L2).2._normalTexture =
        some ⟨.COLOR_R11G11B10, self._frameSize.x >>> L2, self._frameSize.y >>> L2,
          .FILTER_MIN_MAG_POINT⟩ ∧
      ((self.getNormalFramebuffer L1).2.getNormalFramebuffer L2).1 =
        some ⟨.ssaoNormals, ⟨.COLOR_R11G11B10, self._frameSize.x >>> L2, self._frameSize.y >>> L2,
          .FILTER_MIN_MAG_POINT⟩⟩ ∧
      ((self.getNormalFramebuffer L1).2.getNormalFramebuffer L2).2._resolutionLevel = L2 ∧
      ((self.getNormalFramebuffer L1).2.getNormalFramebufferTraced L1).2.2 = [] ∧
      ((self.getNormalFramebuffer L1).2.getNormalFramebuffer L1).2 =
        (self.getNormalFramebuffer L1).2) ∧
    (((self.getNormalTexture L1).2.getNormalTextureTraced L2).2.2 = [(L2 : Int)] ∧
      ((self.getNormalTexture L1).2.getNormalTexture L2).1 =
        some ⟨.COLOR_R11G11B10, self._frameSize.x >>> L2, self._frameSize.y >>> L2,
          .FILTER_MIN_MAG_POINT⟩ ∧
      ((self.getNormalTexture L1).2.getNormalTexture L2).2._normalFramebuffer =
        some ⟨.ssaoNormals, ⟨.COLOR_R11G11B10, self._frameSize.x >>> L2, self._frameSize.y >>> L2,
          .FILTER_MIN_MAG_POINT⟩⟩ ∧
      ((self.getNormalTexture L1).2.getNormalTexture L2).2._resolutionLevel = L2 ∧
      ((self.getNormalTexture L1).2.getNormalTextureTraced L1).2.2 = [] ∧
      ((self.getNormalTexture L1).2.getNormalTexture L1).2 = (self.getNormalTexture L1).2) := by
  have hne : ((L2 : Nat) : Int) ≠ (L1 : Int) := fun e => h (by exact_mod_cast e.symm)
  constructor
  · obtain ⟨p1, p2, p3⟩ := AmbientOcclusionFramebuffer.getNormalFramebuffer_post self L1
    have t2 := AmbientOcclusionFramebuffer.getNormalFramebufferTraced_of_ne
      (self.getNormalFramebuffer L1).2 L2 (by rw [p2]; exact hne)
    have t1 := AmbientOcclusionFramebuffer.getNormalFramebufferTraced_of_same
      (self.getNormalFramebuffer L1).2 p1
    rw [p2] at t1
    have e2 := AmbientOcclusionFramebuffer.getNormalFramebufferTraced_eq
      (self.getNormalFramebuffer L1).2 L2
    have e1 := AmbientOcclusionFramebuffer.getNormalFramebufferTraced_eq
      (self.getNormalFramebuffer L1).2 L1
    rw [← e2, ← e1, t2, t1, AmbientOcclusionFramebuffer.allocateNormal_natCast, p3]
    exact ⟨rfl, rfl, rfl, rfl, rfl, rfl⟩
  · obtain ⟨p1, p2, p3⟩ := AmbientOcclusionFramebuffer.getNormalTexture_post self L1
    have t2 := AmbientOcclusionFramebuffer.getNormalTextureTraced_of_ne
      (self.getNormalTexture L1).2 L2 (by rw [p2]; exact hne)
    have t1 := AmbientOcclusionFramebuffer.getNormalTextureTraced_of_same
      (self.getNormalTexture L1).2 p1
    rw [p2] at t1
    have e2 := AmbientOcclusionFramebuffer.getNormalTextureTraced_eq
      (self.getNormalTexture L1).2 L2
    have e1 := AmbientOcclusionFramebuffer.getNormalTextureTraced_eq
      (self.getNormalTexture L1).2 L1
    rw [← e2, ← e1, t2, t1, AmbientOcclusionFramebuffer.allocateNormal_natCast, p3]
    exact ⟨rfl, rfl, rfl, rfl, rfl, rfl⟩

/-- A manager with frame size `(1, 1)`: the levels 2 and 3 both give a `0 x 0` normal buffer,
and the request for level 3 after level 2 still allocates. -/
theorem normal_buffer_follows_level_witness :
    (2 : Nat) ≠ 3 ∧
    ((1 : Int) >>> (2 : Nat), (1 : Int) >>> (2 : Nat)) = ((1 : Int) >>> (3 : Nat), (1 : Int) >>> (3 : Nat)) ∧
    (((AmbientOcclusionFramebuffer.new ⟨1, 1, 4, 16, ⟨1, 1⟩, 0, 64⟩).getNormalFramebuffer
        (2 : Nat)).2.getNormalFramebufferTraced (3 : Nat)).2.2 = [((3 : Nat) : Int)] :=
  ⟨by decide, by decide,
    (normal_buffer_follows_level (AmbientOcclusionFramebuffer.new ⟨1, 1, 4, 16, ⟨1, 1⟩, 0, 64⟩)
      2 3 (by decide)).1.1⟩

/-! ## C12, C13, C15: the sample table through `configure` and `run` -/

section SampleTable

set_option linter.unusedSectionVars false

variable {α : Type} [LinearOrderedField α] [FloorRing α]

namespace AmbientOcclusionEffect

open AOParameters

theorem randomSamples_configureRadius (hdr : Header) (c : Config α) (st : ConfigureState α) :
    (configureRadius hdr c st).self._randomSamples = st.self._randomSamples := by
  dsimp only [configureRadius]
  by_cases h : c.radius ≠ st.self._aoParametersBuffer.getRadius
  · rw [if_pos h]
    rfl
  · rw [if_neg h]

theorem frameId_configureRadius (hdr : Header) (c : Config α) (st : ConfigureState α) :
    (configureRadius hdr c st).self._frameId = st.self._frameId := by
  dsimp only [configureRadius]
  by_cases h : c.radius ≠ st.self._aoParametersBuffer.getRadius
  · rw [if_pos h]
    rfl
  · rw [if_neg h]

theorem randomSamples_configureObscuranceLevel (c : Config α) (st : ConfigureState α) :
    (configureObscuranceLevel c st).self._randomSamples = st.self._randomSamples := by
  dsimp only [configureObscuranceLevel]
  by_cases h : c.obscuranceLevel ≠ st.self._aoParametersBuffer.getObscuranceLevel
  · rw [if_pos h]
    rfl
  · rw [if_neg h]

theorem frameId_configureObscuranceLevel (c : Config α) (st : ConfigureState α) :
    (configureObscuranceLevel c st).self._frameId = st.self._frameId := by
  dsimp only [configureObscuranceLevel]
  by_cases h : c.obscuranceLevel ≠ st.self._aoParametersBuffer.getObscuranceLevel
  · rw [if_pos h]
    rfl
  · rw [if_neg h]

theorem randomSamples_configureFalloffAngle (c : Config α) (st : ConfigureState α) :
    (configureFalloffAngle c st).self._randomSamples = st.self._randomSamples := by
  dsimp only [configureFalloffAngle]
  by_cases h : c.falloffAngle ≠ st.self._aoParametersBuffer.getFalloffAngle
  · rw [if_pos h]
    rfl
  · rw [if_neg h]

theorem frameId_configureFalloffAngle (c : Config α) (st : ConfigureState α) :
    (configureFalloffAngle c st).self._frameId = st.self._frameId := by
  dsimp only [configureFalloffAngle]
  by_cases h : c.falloffAngle ≠ st.self._aoParametersBuffer.getFalloffAngle
  · rw [if_pos h]
    rfl
  · rw [if_neg h]

theorem randomSamples_configureEdgeSharpness (c : Config α) (st : ConfigureState α) :
    (configureEdgeSharpness c st).self._randomSamples = st.self._randomSamples := by
  dsimp only [configureEdgeSharpness]
  by_cases h : c.edgeSharpness ≠ st.self._aoParametersBuffer.getEdgeSharpness
  · rw [if_pos h]
    rfl
  · rw [if_neg h]

theorem frameId_configureEdgeSharpness (c : Config α) (st : ConfigureState α) :
    (configureEdgeSharpness c st).self._frameId = st.self._frameId := by
  dsimp only [configureEdgeSharpness]
  by_cases h : c.edgeSharpness ≠ st.self._aoParametersBuffer.getEdgeSharpness
  · rw [if_pos h]
    rfl
  · rw [if_neg h]

theorem randomSamples_configureBlurDeviation (c : Config α) (st : ConfigureState α) :
    (configureBlurDeviation c st).self._randomSamples = st.self._randomSamples := by
  dsimp only [configureBlurDeviation]
  by_cases h : c.blurDeviation ≠ st.self._aoParametersBuffer.getBlurDeviation
  · rw [if_pos h]
    rfl
  · rw [if_neg h]

theorem frameId_configureBlurDeviation (c : Config α) (st : ConfigureState α) :
    (configureBlurDeviation c st).self._frameId = st.self._frameId := by
  dsimp only [configureBlurDeviation]
  by_cases h : c.blurDeviation ≠ st.self._aoParametersBuffer.getBlurDeviation
  · rw [if_pos h]
    rfl
  · rw [if_neg h]

theorem randomSamples_configureNumSpiralTurns (c : Config α) (st : ConfigureState α) :
    (configureNumSpiralTurns c st).self._randomSamples = st.self._randomSamples := by
  dsimp only [configureNumSpiralTurns]
  by_cases h : c.numSpiralTurns ≠ st.self._aoParametersBuffer.getNumSpiralTurns
  · rw [if_pos h]
    rfl
  · rw [if_neg h]

theorem frameId_configureNumSpiralTurns (c : Config α) (st : ConfigureState α) :
    (configureNumSpiralTurns c st).self._frameId = st.self._frameId := by
  dsimp only [configureNumSpiralTurns]
  by_cases h : c.numSpiralTurns ≠ st.self._aoParametersBuffer.getNumSpiralTurns
  · rw [if_pos h]
    rfl
  · rw [if_neg h]

theorem randomSamples_configureFetchMips (c : Config α) (st : ConfigureState α) :
    (configureFetchMips c st).self._randomSamples = st.self._randomSamples := by
  dsimp only [configureFetchMips]
  by_cases h : c.fetchMipsEnabled ≠ st.self._aoParametersBuffer.isFetchMipsEnabled
  · rw [if_pos h]
    rfl
  · rw [if_neg h]

theorem frameId_configureFetchMips (c : Config α) (st : ConfigureState α) :
    (configureFetchMips c st).self._frameId = st.self._frameId := by
  dsimp only [configureFetchMips]
  by_cases h : c.fetchMipsEnabled ≠ st.self._aoParametersBuffer.isFetchMipsEnabled
  · rw [if_pos h]
    rfl
  · rw [if_neg h]

theorem randomSamples_configurePerspectiveScale (c : Config α) (st : ConfigureState α) :
    (configurePerspectiveScale c st).self._randomSamples = st.self._randomSamples := by
  dsimp only [configurePerspectiveScale]
  by_cases h : c.perspectiveScale ≠ st.self._aoParametersBuffer.getPerspectiveScale
  · rw [if_pos h]
    rfl
  · rw [if_neg h]

theorem frameId_configurePerspectiveScale (c : Config α) (st : ConfigureState α) :
    (configurePerspectiveScale c st).self._frameId = st.self._frameId := by
  dsimp only [configurePerspectiveScale]
  by_cases h : c.perspectiveScale ≠ st.self._aoParametersBuffer.getPerspectiveScale
  · rw [if_pos h]
    rfl
  · rw [if_neg h]

theorem randomSamples_configureResolutionLevel (hdr : Header) (c : Config α) (st : ConfigureState α) :
    (configureResolutionLevel hdr c st).self._randomSamples = st.self._randomSamples := by
  dsimp only [configureResolutionLevel]
  by_cases h : c.resolutionLevel ≠ st.self._aoParametersBuffer.getResolutionLevel
  · rw [if_pos h]
    split_ifs <;> rfl
  · rw [if_neg h]

theorem frameId_configureResolutionLevel (hdr : Header) (c : Config α) (st : ConfigureState α) :
    (configureResolutionLevel hdr c st).self._frameId = st.self._frameId := by
  dsimp only [configureResolutionLevel]
  by_cases h : c.resolutionLevel ≠ st.self._aoParametersBuffer.getResolutionLevel
  · rw [if_pos h]
    split_ifs <;> rfl
  · rw [if_neg h]

theorem randomSamples_configureBlurRadius (c : Config α) (st : ConfigureState α) :
    (configureBlurRadius c st).self._randomSamples = st.self._randomSamples := by
  dsimp only [configureBlurRadius]
  by_cases h : c.blurRadius ≠ st.self._aoParametersBuffer.getBlurRadius
  · rw [if_pos h]
    rfl
  · rw [if_neg h]

theorem frameId_configureBlurRadius (c : Config α) (st : ConfigureState α) :
    (configureBlurRadius c st).self._frameId = st.self._frameId := by
  dsimp only [configureBlurRadius]
  by_cases h : c.blurRadius ≠ st.self._aoParametersBuffer.getBlurRadius
  · rw [if_pos h]
    rfl
  · rw [if_neg h]

theorem randomSamples_configureDithering (c : Config α) (st : ConfigureState α) :
    (configureDithering c st).self._randomSamples = st.self._randomSamples := by
  dsimp only [configureDithering]
  by_cases h : c.ditheringEnabled ≠ st.self._aoParametersBuffer.isDitheringEnabled
  · rw [if_pos h]
    rfl
  · rw [if_neg h]

theorem frameId_configureDithering (c : Config α) (st : ConfigureState α) :
    (configureDithering c st).self._frameId = st.self._frameId := by
  dsimp only [configureDithering]
  by_cases h : c.ditheringEnabled ≠ st.self._aoParametersBuffer.isDitheringEnabled
  · rw [if_pos h]
    rfl
  · rw [if_neg h]

theorem randomSamples_configureBordering (c : Config α) (st : ConfigureState α) :
    (configureBordering c st).self._randomSamples = st.self._randomSamples := by
  dsimp only [configureBordering]
  by_cases h : c.borderingEnabled ≠ st.self._aoParametersBuffer.isBorderingEnabled
  · rw [if_pos h]
    rfl
  · rw [if_neg h]

theorem frameId_configureBordering (c : Config α) (st : ConfigureState α) :
    (configureBordering c st).self._frameId = st.self._frameId := by
  dsimp only [configureBordering]
  by_cases h : c.borderingEnabled ≠ st.self._aoParametersBuffer.isBorderingEnabled
  · rw [if_pos h]
    rfl
  · rw [if_neg h]

theorem randomSamples_configureFramebuffer (hdr : Header) (st : ConfigureState α) :
    (configureFramebuffer hdr st).self._randomSamples = st.self._randomSamples := by
  unfold configureFramebuffer
  split_ifs <;> rfl

theorem frameId_configureFramebuffer (hdr : Header) (st : ConfigureState α) :
    (configureFramebuffer hdr st).self._frameId = st.self._frameId := by
  unfold configureFramebuffer
  split_ifs <;> rfl

theorem randomSamples_configureNumSamples (m : LibM α) (c : Config α) (st : ConfigureState α) :
    (configureNumSamples m c st).self._randomSamples =
      if c.numSamples ≠ st.self._aoParametersBuffer.getNumSamples then
        regenerateSamples m c.numSamples st.self._randomSamples
      else st.self._randomSamples := by
  dsimp only [configureNumSamples]
  by_cases h : c.numSamples ≠ st.self._aoParametersBuffer.getNumSamples
  · rw [if_pos h, if_pos h]
    rfl
  · rw [if_neg h, if_neg h]

theorem frameId_configureNumSamples (m : LibM α) (c : Config α) (st : ConfigureState α) :
    (configureNumSamples m c st).self._frameId = st.self._frameId := by
  dsimp only [configureNumSamples]
  by_cases h : c.numSamples ≠ st.self._aoParametersBuffer.getNumSamples
  · rw [if_pos h]
    rfl
  · rw [if_neg h]

theorem configureBeforeNumSamples_spec (hdr : Header) (c : Config α)
    (self : AmbientOcclusionEffect α) :
    (configureBeforeNumSamples hdr c self).self._randomSamples = self._randomSamples ∧
    (configureBeforeNumSamples hdr c self).self._frameId = self._frameId ∧
    (configureBeforeNumSamples hdr c self).self._aoParametersBuffer.getNumSamples =
      self._aoParametersBuffer.getNumSamples := by
  refine ⟨?_, ?_, ?_⟩
  · simp only [configureBeforeNumSamples, randomSamples_configureNumSpiralTurns,
      randomSamples_configureBlurDeviation, randomSamples_configureEdgeSharpness,
      randomSamples_configureFalloffAngle, randomSamples_configureObscuranceLevel,
      randomSamples_configureRadius]
  · simp only [configureBeforeNumSamples, frameId_configureNumSpiralTurns,
      frameId_configureBlurDeviation, frameId_configureEdgeSharpness,
      frameId_configureFalloffAngle, frameId_configureObscuranceLevel,
      frameId_configureRadius]
  · have h := congrArg Config.numSamples (show
        readBack false (configureBeforeNumSamples hdr c self).self._aoParametersBuffer = _ from by
      simp only [configureBeforeNumSamples, readBack_configureNumSpiralTurns,
        readBack_configureBlurDeviation, readBack_configureEdgeSharpness,
        readBack_configureFalloffAngle, readBack_configureObscuranceLevel,
        readBack_configureRadius]
      rfl)
    exact h

theorem configureFields_eq_after (hdr : Header) (m : LibM α) (c : Config α)
    (self : AmbientOcclusionEffect α) :
    configureFields hdr m c self =
      configureBordering c (configureDithering c (configureBlurRadius c
        (configureResolutionLevel hdr c (configurePerspectiveScale c (configureFramebuffer hdr
          (configureFetchMips c (configureNumSamples m c
            (configureBeforeNumSamples hdr c self)))))))) :=
  rfl

theorem configureFields_samples (hdr : Header) (m : LibM α) (c : Config α)
    (self : AmbientOcclusionEffect α) :
    (configureFields hdr m c self).self._randomSamples =
      (if c.numSamples ≠ self._aoParametersBuffer.getNumSamples then
        regenerateSamples m c.numSamples self._randomSamples
      else self._randomSamples) ∧
    (configureFields hdr m c self).self._frameId = self._frameId := by
  obtain ⟨b1, b2, b3⟩ := configureBeforeNumSamples_spec hdr c self
  rw [configureFields_eq_after]
  constructor
  · rw [randomSamples_configureBordering, randomSamples_configureDithering,
      randomSamples_configureBlurRadius, randomSamples_configureResolutionLevel,
      randomSamples_configurePerspectiveScale, randomSamples_configureFramebuffer,
      randomSamples_configureFetchMips, randomSamples_configureNumSamples, b1, b3]
  · rw [frameId_configureBordering, frameId_configureDithering,
      frameId_configureBlurRadius, frameId_configureResolutionLevel,
      frameId_configurePerspectiveScale, frameId_configureFramebuffer,
      frameId_configureFetchMips, frameId_configureNumSamples, b2]

theorem optionalGaussian_samples (hdr : Header) (m : LibM α) (st st2 : ConfigureState α)
    (h : (if st.shouldUpdateGaussian then updateGaussianDistribution hdr m st else .ok st)
      = .ok st2) :
    st2.self._randomSamples = st.self._randomSamples ∧ st2.self._frameId = st.self._frameId := by
  split_ifs at h
  · unfold updateGaussianDistribution at h
    dsimp only at h
    split at h
    · exact absurd h (by simp)
    · simp only [Except.ok.injEq] at h
      subst h
      exact ⟨rfl, rfl⟩
  · simp only [Except.ok.injEq] at h
    subst h
    exact ⟨rfl, rfl⟩

theorem optionalBlur_samples (st st2 : ConfigureState α) (b : Bool)
    (h : (if b then updateBlurParameters st else .ok st) = .ok st2) :
    st2.self._randomSamples = st.self._randomSamples ∧ st2.self._frameId = st.self._frameId ∧
    st2.self._aoFrameParametersBuffer = st.self._aoFrameParametersBuffer := by
  split_ifs at h
  · unfold updateBlurParameters at h
    dsimp only at h
    split at h
    · exact absurd h (by simp)
    · simp only [Except.ok.injEq] at h
      subst h
      exact ⟨rfl, rfl, rfl⟩
  · simp only [Except.ok.injEq] at h
    subst h
    exact ⟨rfl, rfl, rfl⟩

theorem configure_samples (hdr : Header) (m : LibM α) (c : Config α)
    (self self1 : AmbientOcclusionEffect α) (log1 : List Event)
    (h : configure hdr m c self = .ok (self1, log1)) :
    self1._randomSamples =
      (if c.numSamples ≠ self._aoParametersBuffer.getNumSamples then
        regenerateSamples m c.numSamples self._randomSamples
      else self._randomSamples) ∧
    self1._frameId = self._frameId := by
  obtain ⟨f1, f2⟩ := configureFields_samples hdr m c self
  unfold configure at h
  dsimp only at h
  cases hG : (if (configureFields hdr m c self).shouldUpdateGaussian then
      updateGaussianDistribution hdr m (configureFields hdr m c self)
      else .ok (configureFields hdr m c self)) with
  | error e => rw [hG] at h; simp at h
  | ok stG =>
    rw [hG] at h
    dsimp only at h
    obtain ⟨g1, g2⟩ := optionalGaussian_samples hdr m _ stG hG
    cases hB : (if stG.shouldUpdateBlurs then updateBlurParameters stG else .ok stG) with
    | error e => rw [hB] at h; simp at h
    | ok stB =>
      rw [hB] at h
      simp only [Except.ok.injEq, Prod.mk.injEq] at h
      obtain ⟨b1, b2, -⟩ := optionalBlur_samples stG stB _ hB
      rw [← h.1, b1, g1, f1, b2, g2, f2]
      exact ⟨rfl, rfl⟩

theorem mem_log_configureFetchMips (c : Config α) (st : ConfigureState α) (ev : Event)
    (h : ev ∈ st.log) : ev ∈ (configureFetchMips c st).log := by
  dsimp only [configureFetchMips]
  by_cases g : c.fetchMipsEnabled ≠ st.self._aoParametersBuffer.isFetchMipsEnabled
  · rw [if_pos g]
    simp [ConfigureState.editAO, h]
  · rw [if_neg g]
    exact h

theorem mem_log_configurePerspectiveScale (c : Config α) (st : ConfigureState α) (ev : Event)
    (h : ev ∈ st.log) : ev ∈ (configurePerspectiveScale c st).log := by
  dsimp only [configurePerspectiveScale]
  by_cases g : c.perspectiveScale ≠ st.self._aoParametersBuffer.getPerspectiveScale
  · rw [if_pos g]
    simp [ConfigureState.editAO, h]
  · rw [if_neg g]
    exact h

theorem mem_log_configureResolutionLevel (hdr : Header) (c : Config α) (st : ConfigureState α) (ev : Event)
    (h : ev ∈ st.log) : ev ∈ (configureResolutionLevel hdr c st).log := by
  dsimp only [configureResolutionLevel]
  by_cases g : c.resolutionLevel ≠ st.self._aoParametersBuffer.getResolutionLevel
  · rw [if_pos g]
    split_ifs <;>
      simp [ConfigureState.editAO, ConfigureState.editPixelOffsets, h]
  · rw [if_neg g]
    exact h

theorem mem_log_configureBlurRadius (c : Config α) (st : ConfigureState α) (ev : Event)
    (h : ev ∈ st.log) : ev ∈ (configureBlurRadius c st).log := by
  dsimp only [configureBlurRadius]
  by_cases g : c.blurRadius ≠ st.self._aoParametersBuffer.getBlurRadius
  · rw [if_pos g]
    simp [ConfigureState.editAO, h]
  · rw [if_neg g]
    exact h

theorem mem_log_configureDithering (c : Config α) (st : ConfigureState α) (ev : Event)
    (h : ev ∈ st.log) : ev ∈ (configureDithering c st).log := by
  dsimp only [configureDithering]
  by_cases g : c.ditheringEnabled ≠ st.self._aoParametersBuffer.isDitheringEnabled
  · rw [if_pos g]
    simp [ConfigureState.editAO, h]
  · rw [if_neg g]
    exact h

theorem mem_log_configureBordering (c : Config α) (st : ConfigureState α) (ev : Event)
    (h : ev ∈ st.log) : ev ∈ (configureBordering c st).log := by
  dsimp only [configureBordering]
  by_cases g : c.borderingEnabled ≠ st.self._aoParametersBuffer.isBorderingEnabled
  · rw [if_pos g]
    simp [ConfigureState.editAO, h]
  · rw [if_neg g]
    exact h

theorem mem_log_configureFramebuffer (hdr : Header) (st : ConfigureState α) (ev : Event)
    (h : ev ∈ st.log) : ev ∈ (configureFramebuffer hdr st).log := by
  unfold configureFramebuffer
  split_ifs <;> exact h

theorem log_configureNumSamples_of_ne (m : LibM α) (c : Config α) (st : ConfigureState α)
    (hne : c.numSamples ≠ st.self._aoParametersBuffer.getNumSamples) :
    Event.editAOParameters ∈ (configureNumSamples m c st).log ∧
    Event.regenerateSamples ∈ (configureNumSamples m c st).log := by
  dsimp only [configureNumSamples]
  rw [if_pos hne]
  simp [ConfigureState.editAO]

theorem mem_log_configureFields (hdr : Header) (m : LibM α) (c : Config α)
    (self : AmbientOcclusionEffect α) (ev : Event)
    (h : ev ∈ (configureNumSamples m c (configureBeforeNumSamples hdr c self)).log) :
    ev ∈ (configureFields hdr m c self).log := by
  rw [configureFields_eq_after]
  exact mem_log_configureBordering c _ ev (mem_log_configureDithering c _ ev
    (mem_log_configureBlurRadius c _ ev (mem_log_configureResolutionLevel hdr c _ ev
      (mem_log_configurePerspectiveScale c _ ev (mem_log_configureFramebuffer hdr _ ev
        (mem_log_configureFetchMips c _ ev h))))))

theorem optionalGaussian_log (hdr : Header) (m : LibM α) (st st2 : ConfigureState α)
    (h : (if st.shouldUpdateGaussian then updateGaussianDistribution hdr m st else .ok st)
      = .ok st2) (ev : Event) (hev : ev ∈ st.log) : ev ∈ st2.log := by
  split_ifs at h
  · unfold updateGaussianDistribution at h
    dsimp only at h
    split at h
    · exact absurd h (by simp)
    · simp only [Except.ok.injEq] at h
      subst h
      simp [hev]
  · simp only [Except.ok.injEq] at h
    subst h
    exact hev

theorem optionalBlur_log (st st2 : ConfigureState α)
    (h : (if st.shouldUpdateBlurs then updateBlurParameters st else .ok st) = .ok st2)
    (ev : Event) (hev : ev ∈ st.log) : ev ∈ st2.log := by
  split_ifs at h
  · unfold updateBlurParameters at h
    dsimp only at h
    split at h
    · exact absurd h (by simp)
    · simp only [Except.ok.injEq] at h
      subst h
      simp [hev]
  · simp only [Except.ok.injEq] at h
    subst h
    exact hev

theorem getNumSamples_configureFields (hdr : Header) (m : LibM α) (c : Config α)
    (self : AmbientOcclusionEffect α) :
    (configureFields hdr m c self).self._aoParametersBuffer.getNumSamples =
      if c.numSamples ≠ self._aoParametersBuffer.getNumSamples then roundToFloat c.numSamples
      else c.numSamples := by
  obtain ⟨-, -, b3⟩ := configureBeforeNumSamples_spec hdr c self
  have key : (readBack false (configureFields hdr m c self).self._aoParametersBuffer).numSamples =
      if c.numSamples ≠
          (configureBeforeNumSamples hdr c self).self._aoParametersBuffer.getNumSamples then
        roundToFloat c.numSamples
      else c.numSamples := by
    rw [configureFields_eq_after]
    simp only [readBack_configureBordering, readBack_configureDithering,
      readBack_configureBlurRadius, readBack_configureResolutionLevel,
      readBack_configurePerspectiveScale, readBack_configureFramebuffer,
      readBack_configureFetchMips, readBack_configureNumSamples]
  rw [b3] at key
  exact key

theorem configure_of_ne (hdr : Header) (m : LibM α) (c : Config α)
    (self self1 : AmbientOcclusionEffect α) (log1 : List Event)
    (h : configure hdr m c self = .ok (self1, log1))
    (hne : c.numSamples ≠ self._aoParametersBuffer.getNumSamples) :
    self1._aoParametersBuffer.getNumSamples = roundToFloat c.numSamples ∧
    Event.editAOParameters ∈ log1 ∧ Event.regenerateSamples ∈ log1 := by
  obtain ⟨-, -, b3⟩ := configureBeforeNumSamples_spec hdr c self
  obtain ⟨e1, e2⟩ := log_configureNumSamples_of_ne m c (configureBeforeNumSamples hdr c self)
    (by rw [b3]; exact hne)
  have f1 := mem_log_configureFields hdr m c self _ e1
  have f2 := mem_log_configureFields hdr m c self _ e2
  have fn := getNumSamples_configureFields hdr m c self
  rw [if_pos hne] at fn
  unfold configure at h
  dsimp only at h
  cases hG : (if (configureFields hdr m c self).shouldUpdateGaussian then
      updateGaussianDistribution hdr m (configureFields hdr m c self)
      else .ok (configureFields hdr m c self)) with
  | error e => rw [hG] at h; simp at h
  | ok stG =>
    rw [hG] at h
    dsimp only at h
    obtain ⟨g1, -⟩ := optionalGaussian_ok hdr m _ stG hG false
    cases hB : (if stG.shouldUpdateBlurs then updateBlurParameters stG else .ok stG) with
    | error e => rw [hB] at h; simp at h
    | ok stB =>
      rw [hB] at h
      simp only [Except.ok.injEq, Prod.mk.injEq] at h
      obtain ⟨b1, -⟩ := optionalBlur_ok stG stB hB false
      have hn : stB.self._aoParametersBuffer.getNumSamples =
          (configureFields hdr m c self).self._aoParametersBuffer.getNumSamples :=
        congrArg Config.numSamples (b1.trans g1)
      rw [← h.1, ← h.2, hn, fn]
      exact ⟨rfl, optionalBlur_log stG stB hB _ (optionalGaussian_log hdr m _ stG hG _ f1),
        optionalBlur_log stG stB hB _ (optionalGaussian_log hdr m _ stG hG _ f2)⟩

theorem regenerateSamples_length (m : LibM α) (n : Int) (table : List α) :
    (regenerateSamples m n table).length = table.length := by
  simp [regenerateSamples]

theorem getNumSamples_new (hdr : Header) :
    (AmbientOcclusionEffect.new hdr : AmbientOcclusionEffect α)._aoParametersBuffer.getNumSamples
      = 11 := by
  have h := truncToInt_intCast (α := α) 11
  simpa [new, AOParameters.new, getNumSamples] using h

theorem length_ite_regenerateSamples (m : LibM α) (n : Int) (table : List α) (p : Prop)
    [Decidable p] :
    (if p then regenerateSamples m n table else table).length = table.length := by
  split_ifs
  · exact regenerateSamples_length m n table
  · rfl

theorem updateSampleRotation_preserves (K : Int) (l : List Nat) :
    ∀ (self self1 : AmbientOcclusionEffect α),
      l.foldlM (fun (self : AmbientOcclusionEffect α) (splitId : Nat) =>
        if 0 ≤ (splitId : Int) + K * self._frameId ∧
            ((splitId : Int) + K * self._frameId).toNat < self._randomSamples.length then
          Except.ok { self with
            _aoFrameParametersBuffer := self._aoFrameParametersBuffer.modify
              (fun p => { p with
                _angleInfo := { p._angleInfo with
                  x := self._randomSamples.getD ((splitId : Int) + K * self._frameId).toNat 0 } })
              splitId }
        else
          Except.error Fault.outOfRangeRead) self = .ok self1 →
      self1._frameId = self._frameId ∧ self1._randomSamples = self._randomSamples := by
  induction l with
  | nil =>
    intro self self1 h
    simp only [List.foldlM_nil, pure, Except.pure, Except.ok.injEq] at h
    subst h
    exact ⟨rfl, rfl⟩
  | cons a l ih =>
    intro self self1 h
    rw [List.foldlM_cons] at h
    by_cases hb : 0 ≤ (a : Int) + K * self._frameId ∧
        ((a : Int) + K * self._frameId).toNat < self._randomSamples.length
    · rw [if_pos hb] at h
      simp only [bind, Except.bind] at h
      have key := ih _ self1 h
      exact key
    · rw [if_neg hb] at h
      exact absurd h (by simp [bind, Except.bind])

theorem updateSampleRotation_returns (K : Int) (l : List Nat) :
    ∀ (self : AmbientOcclusionEffect α),
      (∀ s ∈ l, 0 ≤ (s : Int) + K * self._frameId ∧
        ((s : Int) + K * self._frameId).toNat < self._randomSamples.length) →
      ∃ self1, l.foldlM (fun (self : AmbientOcclusionEffect α) (splitId : Nat) =>
        if 0 ≤ (splitId : Int) + K * self._frameId ∧
            ((splitId : Int) + K * self._frameId).toNat < self._randomSamples.length then
          Except.ok { self with
            _aoFrameParametersBuffer := self._aoFrameParametersBuffer.modify
              (fun p => { p with
                _angleInfo := { p._angleInfo with
                  x := self._randomSamples.getD ((splitId : Int) + K * self._frameId).toNat 0 } })
              splitId }
        else
          Except.error Fault.outOfRangeRead) self = .ok self1 := by
  induction l with
  | nil =>
    intro self _
    exact ⟨self, rfl⟩
  | cons a l ih =>
    intro self hb
    rw [List.foldlM_cons, if_pos (hb a (List.mem_cons_self a l))]
    simp only [bind, Except.bind]
    exact ih _ (fun s hs => hb s (List.mem_cons_of_mem a hs))

theorem updateSampleRotation_ok (hdr : Header) (self self1 : AmbientOcclusionEffect α)
    (h : updateSampleRotation hdr self = .ok self1) :
    self1._frameId = self._frameId ∧ self1._randomSamples = self._randomSamples :=
  updateSampleRotation_preserves _ _ self self1 h

theorem run_samples (hdr : Header) (getDimensions : Nat → IVec2) (viewport : IVec4)
    (linearDepthTexture : TexturePointer) (self self1 : AmbientOcclusionEffect α)
    (batch : List (Command α))
    (h : run hdr getDimensions viewport linearDepthTexture self = .ok (self1, batch)) :
    self1._frameId = self._frameId ∧ self1._randomSamples = self._randomSamples := by
  unfold run at h
  dsimp only at h
  split at h
  · exact absurd h (by simp)
  · rename_i st hst
    obtain ⟨b1, b2, -⟩ := optionalBlur_samples _ st _ hst
    split at h
    · exact absurd h (by simp)
    · rename_i s2 hs2
      obtain ⟨r1, r2⟩ := updateSampleRotation_ok hdr _ s2 hs2
      simp only [Except.ok.injEq, Prod.mk.injEq] at h
      rw [← h.1, r1, r2]
      dsimp only
      rw [b1, b2]
      constructor <;> split_ifs <;> rfl

theorem reachable_samples (hdr : Header) (m : LibM α) (init self : AmbientOcclusionEffect α)
    (hr : Reachable hdr m init self) :
    self._frameId = init._frameId ∧ self._randomSamples.length = init._randomSamples.length := by
  induction hr with
  | start => exact ⟨rfl, rfl⟩
  | afterConfigure config self self1 log _ hc ih =>
    obtain ⟨c1, c2⟩ := configure_samples hdr m config self self1 log hc
    rw [c1, c2, length_ite_regenerateSamples]
    exact ih
  | afterRun getDimensions viewport linearDepthTexture self self1 batch _ hrun ih =>
    obtain ⟨r1, r2⟩ := run_samples hdr getDimensions viewport linearDepthTexture self self1
      batch hrun
    rw [r1, r2]
    exact ih

end AmbientOcclusionEffect

/-- C7 fails as stated: with `numSamples = 16777217` (an `int` that a `float` cannot hold)
the first `configure` stores `16777216.0f`, the accessor reads back `16777216`, and the second
`configure` with the same configuration finds the sample count changed: it edits the
parameter buffer and regenerates the sample table again. -/
theorem configure_twice_inexact_sample_count :
    ∃ self1 log1 self2 log2,
      AmbientOcclusionEffect.configure ⟨1, 1, 4, 16, ⟨0, 0⟩, 0, 64⟩ realLibM
        { Config.default ⟨1, 1, 4, 16, ⟨0, 0⟩, 0, 64⟩ with numSamples := 16777217 }
        (AmbientOcclusionEffect.new ⟨1, 1, 4, 16, ⟨0, 0⟩, 0, 64⟩) = .ok (self1, log1) ∧
      self1._aoParametersBuffer.getNumSamples = 16777216 ∧
      AmbientOcclusionEffect.configure ⟨1, 1, 4, 16, ⟨0, 0⟩, 0, 64⟩ realLibM
        { Config.default ⟨1, 1, 4, 16, ⟨0, 0⟩, 0, 64⟩ with numSamples := 16777217 } self1
        = .ok (self2, log2) ∧
      Event.editAOParameters ∈ log2 ∧ Event.regenerateSamples ∈ log2 ∧
      log2 ≠ [Event.setAmbientOcclusionEnabled false] := by
  obtain ⟨⟨self1, log1⟩, hr1⟩ := AmbientOcclusionEffect.configure_returns
    ⟨1, 1, 4, 16, ⟨0, 0⟩, 0, 64⟩ realLibM
    { Config.default ⟨1, 1, 4, 16, ⟨0, 0⟩, 0, 64⟩ with numSamples := 16777217 }
    (AmbientOcclusionEffect.new ⟨1, 1, 4, 16, ⟨0, 0⟩, 0, 64⟩) (by simp [Config.default])
  obtain ⟨⟨self2, log2⟩, hr2⟩ := AmbientOcclusionEffect.configure_returns
    ⟨1, 1, 4, 16, ⟨0, 0⟩, 0, 64⟩ realLibM
    { Config.default ⟨1, 1, 4, 16, ⟨0, 0⟩, 0, 64⟩ with numSamples := 16777217 } self1
    (by simp [Config.default])
  obtain ⟨n1, -, -⟩ := AmbientOcclusionEffect.configure_of_ne _ _ _ _ self1 log1 hr1
    (by rw [AmbientOcclusionEffect.getNumSamples_new]; decide)
  have hround : roundToFloat 16777217 = 16777216 := by decide
  have n1b : self1._aoParametersBuffer.getNumSamples = 16777216 := by
    rw [n1]
    exact hround
  obtain ⟨-, l1, l2⟩ := AmbientOcclusionEffect.configure_of_ne _ _ _ _ self2 log2 hr2
    (by rw [n1b]; decide)
  refine ⟨self1, log1, self2, log2, hr1, n1b, hr2, l1, l2, fun hlog => ?_⟩
  rw [hlog] at l2
  simp at l2

/-- C13, as amended: after `configure` is called with a sample count `n` that differs from the
stored one, the sample-angle table keeps the length it had before the call (the length does
not depend on `n`) and every entry `i` of it is regenerated as `radicalInverse(i+1) * pi / n`. -/
theorem configure_regenerates_table (hdr : Header) (m : LibM α) (c : Config α)
    (self self1 : AmbientOcclusionEffect α) (log1 : List Event)
    (hne : c.numSamples ≠ self._aoParametersBuffer.getNumSamples)
    (h : AmbientOcclusionEffect.configure hdr m c self = .ok (self1, log1)) :
    self1._randomSamples.length = self._randomSamples.length ∧
    ∀ i, i < self._randomSamples.length →
      self1._randomSamples[i]? = some (radicalInverse (i + 1) * m.pi / (c.numSamples : α)) := by
  obtain ⟨h1, -⟩ := AmbientOcclusionEffect.configure_samples hdr m c self self1 log1 h
  rw [if_pos hne] at h1
  rw [h1]
  refine ⟨AmbientOcclusionEffect.regenerateSamples_length m _ _, fun i hi => ?_⟩
  simp [regenerateSamples, List.getElem?_range hi, sampleAngle]

/-- The default configuration (16 samples) applied to a fresh effect whose parameter block
holds 11 samples and whose table has 64 entries: the call returns, the table still has 64
entries and they are regenerated. -/
theorem configure_regenerates_table_witness :
    ∃ self1 log1,
      (Config.default (α := ℝ) ⟨0, 1, 4, 16, ⟨0, 0⟩, 0, 64⟩).numSamples ≠
        (AmbientOcclusionEffect.new (α := ℝ)
          ⟨0, 1, 4, 16, ⟨0, 0⟩, 0, 64⟩)._aoParametersBuffer.getNumSamples ∧
      AmbientOcclusionEffect.configure ⟨0, 1, 4, 16, ⟨0, 0⟩, 0, 64⟩ realLibM
        (Config.default ⟨0, 1, 4, 16, ⟨0, 0⟩, 0, 64⟩)
        (AmbientOcclusionEffect.new ⟨0, 1, 4, 16, ⟨0, 0⟩, 0, 64⟩) = .ok (self1, log1) ∧
      self1._randomSamples.length =
        (AmbientOcclusionEffect.new (α := ℝ) ⟨0, 1, 4, 16, ⟨0, 0⟩, 0, 64⟩)._randomSamples.length ∧
      ∀ i, i < (AmbientOcclusionEffect.new (α := ℝ)
          ⟨0, 1, 4, 16, ⟨0, 0⟩, 0, 64⟩)._randomSamples.length →
        self1._randomSamples[i]? = some (radicalInverse (i + 1) * realLibM.pi /
          ((Config.default (α := ℝ) ⟨0, 1, 4, 16, ⟨0, 0⟩, 0, 64⟩).numSamples : ℝ)) := by
  have hne : (Config.default (α := ℝ) ⟨0, 1, 4, 16, ⟨0, 0⟩, 0, 64⟩).numSamples ≠
      (AmbientOcclusionEffect.new (α := ℝ)
        ⟨0, 1, 4, 16, ⟨0, 0⟩, 0, 64⟩)._aoParametersBuffer.getNumSamples := by
    rw [AmbientOcclusionEffect.getNumSamples_new]
    simp [Config.default]
  obtain ⟨⟨self1, log1⟩, hr⟩ := AmbientOcclusionEffect.configure_returns
    ⟨0, 1, 4, 16, ⟨0, 0⟩, 0, 64⟩ realLibM (Config.default ⟨0, 1, 4, 16, ⟨0, 0⟩, 0, 64⟩)
    (AmbientOcclusionEffect.new ⟨0, 1, 4, 16, ⟨0, 0⟩, 0, 64⟩) (by simp [Config.default])
  exact ⟨self1, log1, hne, hr, configure_regenerates_table _ _ _ _ self1 log1 hne hr⟩

/-- C13 fails as stated: on an effect whose table has 16 entries, `configure` with 16 samples
and then `configure` with 11 samples (a count that differs from the stored 16) both return,
and after the second call the table still has 16 entries, not 11. -/
theorem configure_table_length_unchanged :
    ∃ self1 log1 self2 log2,
      AmbientOcclusionEffect.configure ⟨0, 1, 4, 16, ⟨0, 0⟩, 0, 16⟩ realLibM
        (Config.default ⟨0, 1, 4, 16, ⟨0, 0⟩, 0, 16⟩)
        (AmbientOcclusionEffect.new ⟨0, 1, 4, 16, ⟨0, 0⟩, 0, 16⟩) = .ok (self1, log1) ∧
      self1._aoParametersBuffer.getNumSamples = 16 ∧
      self1._randomSamples.length = 16 ∧
      AmbientOcclusionEffect.configure ⟨0, 1, 4, 16, ⟨0, 0⟩, 0, 16⟩ realLibM
        { Config.default ⟨0, 1, 4, 16, ⟨0, 0⟩, 0, 16⟩ with numSamples := 11 } self1
        = .ok (self2, log2) ∧
      self2._randomSamples.length = 16 ∧ self2._randomSamples.length ≠ 11 := by
  obtain ⟨⟨self1, log1⟩, hr1⟩ := AmbientOcclusionEffect.configure_returns
    ⟨0, 1, 4, 16, ⟨0, 0⟩, 0, 16⟩ realLibM (Config.default ⟨0, 1, 4, 16, ⟨0, 0⟩, 0, 16⟩)
    (AmbientOcclusionEffect.new ⟨0, 1, 4, 16, ⟨0, 0⟩, 0, 16⟩) (by simp [Config.default])
  obtain ⟨⟨self2, log2⟩, hr2⟩ := AmbientOcclusionEffect.configure_returns
    ⟨0, 1, 4, 16, ⟨0, 0⟩, 0, 16⟩ realLibM
    { Config.default ⟨0, 1, 4, 16, ⟨0, 0⟩, 0, 16⟩ with numSamples := 11 } self1
    (by simp [Config.default])
  obtain ⟨v1, -⟩ := AmbientOcclusionEffect.configure_configured _ _ _
    (roundToFloat_of_le _ (by simp [Config.default]))
    (roundToFloat_of_le _ (by simp [Config.default]))
    (roundToFloat_of_le _ (by simp [Config.default])) _ self1 log1 hr1
  have hn1 : self1._aoParametersBuffer.getNumSamples = 16 := by
    have := congrArg Config.numSamples v1
    simpa [Config.default, AOParameters.readBack] using this
  obtain ⟨s1, -⟩ := AmbientOcclusionEffect.configure_samples _ _ _ _ self1 log1 hr1
  obtain ⟨s2, -⟩ := AmbientOcclusionEffect.configure_samples _ _ _ _ self2 log2 hr2
  have l1 : self1._randomSamples.length = 16 := by
    rw [s1, AmbientOcclusionEffect.length_ite_regenerateSamples]
    simp [AmbientOcclusionEffect.new]
  have l2 : self2._randomSamples.length = 16 := by
    rw [s2, AmbientOcclusionEffect.length_ite_regenerateSamples, l1]
  exact ⟨self1, log1, self2, log2, hr1, hn1, l1, hr2, l2, by rw [l2]; decide⟩

/-- C12: in every state that completed calls of `configure` and `run` produce from an effect
whose frame id is 0 (no code of the effect writes `_frameId`) and whose sample table holds at
least `SSAO_SPLIT_COUNT` entries, the index `splitId + samplesPerSplit * _frameId` read by `run`
is within the bounds of the table for every `splitId < SSAO_SPLIT_COUNT`, and the loop that
reads the table completes without an out-of-range read. -/
theorem sample_index_in_bounds (hdr : Header) (m : LibM α)
    (init self : AmbientOcclusionEffect α) (h0 : init._frameId = 0)
    (hS : hdr.SSAO_SPLIT_COUNT ≤ init._randomSamples.length)
    (hr : AmbientOcclusionEffect.Reachable hdr m init self) :
    self._frameId = 0 ∧
    (∀ splitId, splitId < hdr.SSAO_SPLIT_COUNT →
      0 ≤ AmbientOcclusionEffect.sampleIndex hdr self splitId ∧
      AmbientOcclusionEffect.sampleIndex hdr self splitId < (self._randomSamples.length : Int)) ∧
    ∃ self1, AmbientOcclusionEffect.updateSampleRotation hdr self = .ok self1 := by
  obtain ⟨i1, i2⟩ := AmbientOcclusionEffect.reachable_samples hdr m init self hr
  rw [h0] at i1
  rw [← i2] at hS
  refine ⟨i1, fun splitId hs => ?_, ?_⟩
  · simp only [AmbientOcclusionEffect.sampleIndex, i1, mul_zero, add_zero]
    constructor
    · exact Int.natCast_nonneg splitId
    · exact_mod_cast lt_of_lt_of_le hs hS
  · refine AmbientOcclusionEffect.updateSampleRotation_returns _ _ self (fun s hs => ?_)
    rw [List.mem_range] at hs
    rw [i1, mul_zero, add_zero]
    constructor
    · exact Int.natCast_nonneg s
    · rw [Int.toNat_ofNat]
      exact lt_of_lt_of_le hs hS

/-- A fresh effect with four splits and a table of 64 entries, after a call of `configure`
with the default configuration: the four reads of `run` are in range. -/
theorem sample_index_in_bounds_witness :
    (AmbientOcclusionEffect.new (α := ℝ) ⟨1, 1, 4, 16, ⟨0, 0⟩, 0, 64⟩)._frameId = 0 ∧
    (4 : Nat) ≤ (AmbientOcclusionEffect.new (α := ℝ)
      ⟨1, 1, 4, 16, ⟨0, 0⟩, 0, 64⟩)._randomSamples.length ∧
    ∃ self1 log1,
      AmbientOcclusionEffect.configure ⟨1, 1, 4, 16, ⟨0, 0⟩, 0, 64⟩ realLibM
        (Config.default ⟨1, 1, 4, 16, ⟨0, 0⟩, 0, 64⟩)
        (AmbientOcclusionEffect.new ⟨1, 1, 4, 16, ⟨0, 0⟩, 0, 64⟩) = .ok (self1, log1) ∧
      (∀ splitId, splitId < 4 →
        0 ≤ AmbientOcclusionEffect.sampleIndex ⟨1, 1, 4, 16, ⟨0, 0⟩, 0, 64⟩ self1 splitId ∧
        AmbientOcclusionEffect.sampleIndex ⟨1, 1, 4, 16, ⟨0, 0⟩, 0, 64⟩ self1 splitId <
          (self1._randomSamples.length : Int)) ∧
      ∃ self2, AmbientOcclusionEffect.updateSampleRotation ⟨1, 1, 4, 16, ⟨0, 0⟩, 0, 64⟩ self1
        = .ok self2 := by
  have h0 : (AmbientOcclusionEffect.new (α := ℝ) ⟨1, 1, 4, 16, ⟨0, 0⟩, 0, 64⟩)._frameId = 0 := rfl
  have hS : (4 : Nat) ≤ (AmbientOcclusionEffect.new (α := ℝ)
      ⟨1, 1, 4, 16, ⟨0, 0⟩, 0, 64⟩)._randomSamples.length := by
    simp [AmbientOcclusionEffect.new]
  obtain ⟨⟨self1, log1⟩, hc⟩ := AmbientOcclusionEffect.configure_returns
    ⟨1, 1, 4, 16, ⟨0, 0⟩, 0, 64⟩ realLibM (Config.default ⟨1, 1, 4, 16, ⟨0, 0⟩, 0, 64⟩)
    (AmbientOcclusionEffect.new ⟨1, 1, 4, 16, ⟨0, 0⟩, 0, 64⟩) (by simp [Config.default])
  have hr : AmbientOcclusionEffect.Reachable ⟨1, 1, 4, 16, ⟨0, 0⟩, 0, 64⟩ realLibM
      (AmbientOcclusionEffect.new ⟨1, 1, 4, 16, ⟨0, 0⟩, 0, 64⟩) self1 :=
    AmbientOcclusionEffect.Reachable.afterConfigure _ _ self1 log1
      AmbientOcclusionEffect.Reachable.start hc
  exact ⟨h0, hS, self1, log1, hc,
    (sample_index_in_bounds ⟨1, 1, 4, 16, ⟨0, 0⟩, 0, 64⟩ realLibM _ self1 h0 hS hr).2⟩

end SampleTable

end AmbientOcclusion
